import Mathlib

/-!
Shallow embedding of the Proxmox maintenance reconciliation engine
(`src/py/proxmox_cli/utils/ssh.py`, `src/py/proxmox_cli/core/maintenance.py`,
and the legacy copy `src/py/proxmox_maintenance.py`).

Remote effects are modelled by an oracle (`World`) that supplies, per spawned
subprocess (numbered in spawn order), the subprocess outcome, and supplies the
terminal state (`isatty`, one line of interactive input) and the behaviour of
the external JSON decoder `json.loads` (an uninterpreted total parser: the
repository code only branches on whether decoding succeeds and on the decoded
value). Computations are functions `World → Nat → Except PyError α × Nat ×
List Event`: the `Nat` is the index of the next subprocess to spawn, and the
event list records, in order, the observable actions the computation performed
(subprocess spawns, dry-run skips, structured log events, interactive
prompts). Python exceptions are the `Except` error channel.
-/

namespace ProxmoxVerify

/-- `CommandResult` from `proxmox_cli/utils/ssh.py`: captured stdout, stderr
and numeric exit status of one remote command. -/
structure CommandResult where
  stdout : String
  stderr : String
  returncode : Int
deriving Repr, DecidableEq

/-- The Python exceptions that the embedded code can raise.
`commandExecution` is `CommandExecutionError`; `proxmoxCLI` is
`ProxmoxCLIError` (both the legacy and consolidated class, which differ only
in their base class, not behaviour); `frozenInstance` is the pydantic
`ValidationError` of error type `frozen_instance` raised by attribute
assignment on a model whose `model_config` has `frozen=True`; `valueErr` is
`ValueError`. -/
inductive PyError where
  | commandExecution (msg : String)
  | proxmoxCLI (msg : String)
  | frozenInstance (typeName : String)
  | valueErr (msg : String)
deriving Repr, DecidableEq

/-- Observable actions: a spawned ssh subprocess carrying the remote command
string, a logged dry-run skip, a structured log event (by event name), and an
interactive username prompt. -/
inductive Event where
  | execCmd (cmd : String)
  | dryRunCmd (cmd : String)
  | logEvent (name : String)
  | prompt (target : String) (previousUser : String)
deriving Repr, DecidableEq

/-- Outcome of one spawned subprocess, supplied by the environment: the bytes
it wrote to stdout and stderr, its exit status (`none` models
`process.returncode is None`), and whether it would exceed a caller-supplied
timeout. -/
structure ExecOutcome where
  stdout : String
  stderr : String
  returncode : Option Int
  timedOut : Bool
deriving Repr

/-- A JSON value as produced by `json.loads` (objects from `json.loads` have
unique keys; numbers are modelled as integers, which covers every payload the
inventory schemas accept). -/
inductive Json where
  | null
  | bool (b : Bool)
  | num (n : Int)
  | str (s : String)
  | arr (items : List Json)
  | obj (fields : List (String × Json))

/-- The environment: subprocess outcomes by spawn index, the terminal state
read by `sys.stdin.isatty()` and `input()` (`none` models EOF/interrupt), and
the external decoder `json.loads` (`none` models `json.JSONDecodeError`). -/
structure World where
  exec : Nat → ExecOutcome
  isatty : Bool
  inputLine : Option String
  jsonLoads : String → Option Json

/-- Effectful computation: next-subprocess index in, result plus new index
plus the events this computation emitted. -/
def PyM (α : Type) : Type := World → Nat → Except PyError α × Nat × List Event

/-- Return without effects. -/
def PyM.pure {α : Type} (a : α) : PyM α := fun _ n => (Except.ok a, n, [])

/-- Sequencing: thread the subprocess counter, concatenate emitted events,
and short-circuit on a raised exception. -/
def PyM.bind {α β : Type} (m : PyM α) (f : α → PyM β) : PyM β := fun w n =>
  match m w n with
  | (Except.ok a, n1, evs1) =>
    match f a w n1 with
    | (r, n2, evs2) => (r, n2, evs1 ++ evs2)
  | (Except.error e, n1, evs1) => (Except.error e, n1, evs1)

instance : Monad PyM where
  pure := PyM.pure
  bind := PyM.bind

/-- Raise a Python exception. -/
def pyRaise {α : Type} (e : PyError) : PyM α := fun _ n => (Except.error e, n, [])

/-- Emit one observable event. -/
def emit (ev : Event) : PyM Unit := fun _ n => (Except.ok (), n, [ev])

/-- `try: m except CommandExecutionError as exc:` reified: the caught message
is returned in the error component; other exceptions propagate. -/
def tryCommand {α : Type} (m : PyM α) : PyM (Except String α) := fun w n =>
  match m w n with
  | (Except.ok a, n1, evs) => (Except.ok (Except.ok a), n1, evs)
  | (Except.error (PyError.commandExecution msg), n1, evs) =>
    (Except.ok (Except.error msg), n1, evs)
  | (Except.error e, n1, evs) => (Except.error e, n1, evs)

/-- `try: m except ProxmoxCLIError as exc:` reified. -/
def tryProxmox {α : Type} (m : PyM α) : PyM (Except String α) := fun w n =>
  match m w n with
  | (Except.ok a, n1, evs) => (Except.ok (Except.ok a), n1, evs)
  | (Except.error (PyError.proxmoxCLI msg), n1, evs) =>
    (Except.ok (Except.error msg), n1, evs)
  | (Except.error e, n1, evs) => (Except.error e, n1, evs)

/-- Read the decode of `json.loads(text)` from the environment (the raise on
decode failure is at the call sites, mirroring the source). -/
def askJsonLoads (text : String) : PyM (Option Json) := fun w n =>
  (Except.ok (w.jsonLoads text), n, [])

-- Python string helpers used by the source, modelled over ASCII text.
-- (All are structurally recursive over the character list, so that concrete
-- runs of the embedding reduce inside the kernel.)

/-- Python `str.lower()` over ASCII text. -/
def pyLower (s : String) : String := String.mk (s.data.map Char.toLower)

/-- Python `str.strip()` with no arguments: drop leading and trailing
whitespace. -/
def pyStrip (s : String) : String :=
  String.mk (((s.data.dropWhile Char.isWhitespace).reverse.dropWhile
    Char.isWhitespace).reverse)

/-- Split a character list at every separator character (keeping empty
segments, as Python `str.split(sep)` does). -/
def splitSepAux (sep : Char) : List Char → List Char → List (List Char)
  | [], acc => [acc.reverse]
  | c :: rest, acc =>
    if c = sep then acc.reverse :: splitSepAux sep rest []
    else splitSepAux sep rest (c :: acc)

/-- Python `str.split(sep)` for a one-character separator. -/
def pySplitSep (sep : Char) (s : String) : List String :=
  (splitSepAux sep s.data []).map String.mk

/-- Segments of a character list between whitespace characters. -/
def splitWsAux : List Char → List Char → List (List Char)
  | [], acc => [acc.reverse]
  | c :: rest, acc =>
    if Char.isWhitespace c then acc.reverse :: splitWsAux rest []
    else splitWsAux rest (c :: acc)

/-- Python `str.split()` with no arguments: split on whitespace runs and drop
empty tokens. -/
def pySplitWs (s : String) : List String :=
  ((splitWsAux s.data []).map String.mk).filter (fun t => t ≠ "")

/-- Python `s.startswith(pre)`. -/
def pyStartsWith (pre s : String) : Bool := List.isPrefixOf pre.data s.data

/-- Python `c in s` for a one-character needle. -/
def pyContainsChar (s : String) (c : Char) : Bool := s.data.contains c

/-- Helper for `pySplitlines`; recursion consumes the character list. -/
def splitlinesAux : List Char → List Char → List String
  | [], acc => if acc.isEmpty then [] else [String.mk acc.reverse]
  | '\n' :: rest, acc => String.mk acc.reverse :: splitlinesAux rest []
  | '\r' :: '\n' :: rest, acc => String.mk acc.reverse :: splitlinesAux rest []
  | '\r' :: rest, acc => String.mk acc.reverse :: splitlinesAux rest []
  | c :: rest, acc => splitlinesAux rest (c :: acc)

/-- Python `str.splitlines()` over the line boundaries that occur in shell
output (`\n`, `\r\n`, `\r`); no trailing empty line for a trailing newline. -/
def pySplitlines (s : String) : List String := splitlinesAux s.toList []

/-- Python `str.strip(c)` for a one-character set: drop leading and trailing
occurrences of `c`. -/
def pyStripChar (c : Char) (s : String) : String :=
  String.mk (((s.toList.dropWhile (fun d => d = c)).reverse.dropWhile
    (fun d => d = c)).reverse)

/-- Digit run accepted by Python `int()`: decimal digits with single
underscores strictly between digits. -/
def digitsRunValid : List Char → Bool
  | [] => false
  | [c] => c.isDigit
  | c :: '_' :: rest => c.isDigit && digitsRunValid rest
  | c :: rest => c.isDigit && digitsRunValid rest

/-- Numeric value of a digit list (underscores removed beforehand). -/
def digitsToNat (cs : List Char) : Nat :=
  cs.foldl (fun n c => n * 10 + (c.toNat - 48)) 0

/-- Python `int(s)` on a decimal string: surrounding whitespace stripped,
optional sign, digits with optional single grouping underscores; `none`
models the `ValueError` raise. -/
def pyIntParse (s : String) : Option Int :=
  let t := pyStrip s
  let (sign, body) :=
    match t.toList with
    | '+' :: rest => ((1 : Int), rest)
    | '-' :: rest => ((-1 : Int), rest)
    | l => ((1 : Int), l)
  if digitsRunValid body then
    some (sign * Int.ofNat (digitsToNat (body.filter (fun c => c ≠ '_'))))
  else none

/-- Characters `shlex.quote` leaves unquoted. -/
def shlexSafeChar (c : Char) : Bool :=
  c.isAlphanum || pyContainsChar "_@%+=:,./-" c

/-- The single-quote character (written by code point to keep the source file
free of quote literals). -/
def squote : String := String.singleton (Char.ofNat 39)

/-- `shlex.quote`: return the string unchanged when non-empty and wholly made
of safe characters, else surround with single quotes, escaping embedded
single quotes as in the CPython implementation. -/
def shlexQuote (s : String) : String :=
  if s ≠ "" ∧ s.toList.all shlexSafeChar then s
  else squote ++ s.replace squote (squote ++ "\"" ++ squote ++ "\"" ++ squote) ++ squote

/-- `shlex_join` from both maintenance modules: quote each part and join with
single spaces. -/
def shlex_join (parts : List String) : String :=
  String.intercalate " " (parts.map shlexQuote)

-- Remote Command Channel (`proxmox_cli/utils/ssh.py`)

/-- `DEFAULT_SSH_OPTIONS`: the fixed non-interactive baseline ssh options. -/
def DEFAULT_SSH_OPTIONS : List String :=
  ["-o", "BatchMode=yes", "-o", "StrictHostKeyChecking=no",
   "-o", "UserKnownHostsFile=/dev/null", "-o", "ConnectTimeout=15"]

/-- `SSHSession`: a remote endpoint plus the session-lifetime `dry_run` flag.
All fields are set at construction and never mutated. -/
structure SSHSession where
  host : String
  user : String
  dry_run : Bool
  identity_file : Option String := none
  extra_args : List String := []
  description : String := "remote"
deriving Repr, DecidableEq

/-- The full `ssh` argument vector `run` spawns for a given remote command. -/
def SSHSession.sshCommand (s : SSHSession) (remote_cmd : String) : List String :=
  ["ssh"] ++ DEFAULT_SSH_OPTIONS
    ++ (match s.identity_file with
        | some f => ["-i", f]
        | none => [])
    ++ s.extra_args
    ++ [s.user ++ "@" ++ s.host]
    ++ [remote_cmd]

/-- `SSHSession.run`. If `dry_run` and the command is flagged `mutable`, log
and return a synthetic empty zero-exit result without spawning anything.
Otherwise spawn the subprocess (consuming one oracle outcome): a timeout
(only possible when `timeout_seconds` was supplied) raises a timeout-flavored
`CommandExecutionError`; stdout is captured only when `capture_output`; a
`none` exit status reads as `-1`; with `check`, a nonzero exit raises
`CommandExecutionError`. -/
def SSHSession.run (s : SSHSession) (remote_cmd : String) (capture_output : Bool)
    (check : Bool := true) (mutable : Bool := false)
    (timeout_seconds : Option Nat := none) : PyM CommandResult := fun w n =>
  if s.dry_run ∧ mutable then
    (Except.ok { stdout := "", stderr := "", returncode := 0 }, n, [Event.dryRunCmd remote_cmd])
  else
    let out := w.exec n
    let evs := [Event.execCmd remote_cmd]
    if timeout_seconds.isSome ∧ out.timedOut then
      (Except.error (PyError.commandExecution
        ("Command timed out on " ++ s.description ++ ": " ++ remote_cmd)), n + 1, evs)
    else
      let stdout_text := if capture_output then out.stdout else ""
      let stderr_text := out.stderr
      let return_code := out.returncode.getD (-1)
      if check ∧ return_code ≠ 0 then
        (Except.error (PyError.commandExecution
          ("Command failed on " ++ s.description ++ ": " ++ remote_cmd)), n + 1, evs)
      else
        (Except.ok ⟨stdout_text, stderr_text, return_code⟩, n + 1, evs)

-- Guest Upgrade Helper (`proxmox_cli/utils/ssh.py`)

/-- `GuestSSHOptions`: connection options applied to every guest this run. -/
structure GuestSSHOptions where
  user : String
  identity_file : Option String
  extra_args : List String
deriving Repr, DecidableEq

/-- Python dict assignment `data[key] = value` over an association list:
replaces any existing binding. -/
def dictSet (d : List (String × String)) (key value : String) :
    List (String × String) :=
  (d.filter (fun kv => kv.1 ≠ key)) ++ [(key, value)]

/-- Python `data.get(key, default)`. -/
def dictGet (d : List (String × String)) (key dflt : String) : String :=
  match d.lookup key with
  | some v => v
  | none => dflt

/-- Python `line.split(sep, 1)`: split at the first separator only. -/
def splitOnce (sep : Char) (line : String) : String × String :=
  match pySplitSep sep line with
  | [] => (line, "")
  | k :: rest => (k, String.intercalate (String.singleton sep) rest)

/-- `parse_os_release`: per line, strip; skip blanks, comments and lines
without `=`; split at the first `=`; strip whitespace then double then single
quotes from the value; store in a dict. -/
def parse_os_release (content : String) : List (String × String) :=
  (pySplitlines content).foldl
    (fun data rawLine =>
      let line := pyStrip rawLine
      if line = "" ∨ pyStartsWith "#" line ∨ ¬ pyContainsChar line (Char.ofNat 61) then data
      else
        let kv := splitOnce (Char.ofNat 61) line
        let value := pyStripChar (Char.ofNat 39) (pyStripChar '"' (pyStrip kv.2))
        dictSet data kv.1 value)
    []

/-- `determine_package_manager`: lowercase the `ID` value and the
whitespace-split `ID_LIKE` tokens, and test the combined candidate set
against the five package-manager families in source order. -/
def determine_package_manager (os_release : List (String × String)) :
    Option String :=
  let os_id := pyLower (dictGet os_release "ID" "")
  let like_tokens := pySplitWs (pyLower (dictGet os_release "ID_LIKE" ""))
  let candidates := os_id :: like_tokens
  if candidates.any (fun t => t == "alpine") then some "apk"
  else if candidates.any (fun t => t == "debian" || t == "ubuntu") then some "apt"
  else if candidates.any (fun t => t == "fedora" || t == "rhel" || t == "centos") then
    some "dnf"
  else if candidates.contains "arch" then some "pacman"
  else if candidates.any (fun t => t == "suse" || t == "opensuse" || t == "sles") then
    some "zypper"
  else none

/-- `build_upgrade_command`: the non-interactive upgrade line per family,
each command optionally prefixed by `sudo `; an unrecognized name raises
`ValueError` (unreachable from `determine_package_manager` output). -/
def build_upgrade_command (package_manager : String) (use_sudo : Bool) :
    Except PyError String :=
  let pfx := if use_sudo then "sudo " else ""
  if package_manager = "apt" then
    Except.ok (pfx ++ "apt update && " ++ pfx ++ "apt full-upgrade -y && "
      ++ pfx ++ "apt autoremove -y")
  else if package_manager = "dnf" then
    Except.ok (pfx ++ "dnf upgrade --refresh -y")
  else if package_manager = "apk" then
    Except.ok (pfx ++ "apk update && " ++ pfx ++ "apk upgrade")
  else if package_manager = "pacman" then
    Except.ok (pfx ++ "pacman -Syu --noconfirm")
  else if package_manager = "zypper" then
    Except.ok (pfx ++ "zypper refresh && " ++ pfx ++ "zypper update -y")
  else
    Except.error (PyError.valueErr
      ("Unsupported package manager: " ++ package_manager))

/-- Lift an `Except` value into the effect monad (a pure Python expression
that may raise). -/
def liftExcept {α : Type} (e : Except PyError α) : PyM α := fun _ n => (e, n, [])

/-- `upgrade_guest_operating_system`: read `/etc/os-release` (read-only, so
it executes even under dry-run; a command failure logs and reports `false`),
map the parsed content to a package manager (`none` logs `unsupported` and
reports `false`), build the upgrade command with `sudo` when the session user
is not `root`, and run it as a mutable command (a failure logs and reports
`false`). -/
def upgrade_guest_operating_system (session : SSHSession) : PyM Bool := do
  let release? ← tryCommand (session.run "cat /etc/os-release" true)
  match release? with
  | Except.error _ => do
    emit (Event.logEvent "guest-os-release-error")
    pure false
  | Except.ok release_content =>
    let os_release := parse_os_release release_content.stdout
    match determine_package_manager os_release with
    | none => do
      emit (Event.logEvent "guest-os-unsupported")
      pure false
    | some package_manager => do
      let command ← liftExcept (build_upgrade_command package_manager
        (session.user ≠ "root"))
      let r ← tryCommand (session.run command false true true)
      match r with
      | Except.error _ => do
        emit (Event.logEvent "guest-upgrade-failed")
        pure false
      | Except.ok _ => pure true

/-- `prompt_for_alternate_username`: without a tty, log and return `none`
without prompting; with a tty, show the prompt and read one line (`none`
input models EOF/interrupt), returning the stripped line, or `none` when
blank. -/
def prompt_for_alternate_username (target previous_user : String) :
    PyM (Option String) := fun w n =>
  if ¬ w.isatty then
    (Except.ok none, n, [Event.logEvent "prompt-unavailable"])
  else
    match w.inputLine with
    | none => (Except.ok none, n, [Event.prompt target previous_user])
    | some line =>
      let new_user := pyStrip line
      (Except.ok (if new_user = "" then none else some new_user), n,
        [Event.prompt target previous_user])

/-- `attempt_guest_upgrade`: build a fresh session to the guest address as
`default_user` and attempt the upgrade; when the attempt reports failure,
prompt for an alternate username and, if one was given, retry once with a
fresh session under that user. -/
def attempt_guest_upgrade (ip_address default_user : String)
    (options : GuestSSHOptions) (dry_run : Bool) (identifier : String) :
    PyM Unit := do
  let session : SSHSession :=
    { host := ip_address, user := default_user, dry_run := dry_run,
      identity_file := options.identity_file, extra_args := options.extra_args,
      description := identifier }
  let success ← upgrade_guest_operating_system session
  if success then pure ()
  else do
    let alternate_user ← prompt_for_alternate_username ip_address default_user
    match alternate_user with
    | none => pure ()
    | some alt =>
      let retry_session : SSHSession :=
        { host := ip_address, user := alt, dry_run := dry_run,
          identity_file := options.identity_file,
          extra_args := options.extra_args,
          description := identifier ++ "-retry" }
      let _ ← upgrade_guest_operating_system retry_session
      pure ()

-- Inventory Models (`proxmox_cli/core/maintenance.py`)

/-- `VirtualMachine` (a `_InventoryRecord`, whose `model_config` has
`frozen=True`): string id, display name, status string. -/
structure VirtualMachine where
  vmid : String
  name : String
  status : String
deriving Repr, DecidableEq

/-- `VirtualMachine.is_running`: derived from the status string. -/
def VirtualMachine.is_running (vm : VirtualMachine) : Bool :=
  pyLower vm.status == "running"

/-- `LXCContainer` (a `_InventoryRecord`, `frozen=True`). -/
structure LXCContainer where
  ctid : String
  name : String
  status : String
deriving Repr, DecidableEq

/-- `LXCContainer.is_running`. -/
def LXCContainer.is_running (ct : LXCContainer) : Bool :=
  pyLower ct.status == "running"

/-- Attribute assignment `record.field = value` on an `_InventoryRecord`:
pydantic v2 rejects assignment on a model whose config sets `frozen=True`,
raising a `ValidationError` of error type `frozen_instance`; the field is
never updated. -/
def frozenSetStatus (typeName : String) (_newValue : String) : PyM Unit :=
  pyRaise (PyError.frozenInstance typeName)

/-- `VMRecord` / `ContainerRecord` raw schema: required integer `vmid`,
optional `name` and `status`, extra keys ignored. -/
structure VMRecord where
  vmid : Int
  name : Option String
  status : Option String
deriving Repr, DecidableEq

/-- `GuestInterfaceAddress` raw schema: required `ip-address` and
`ip-address-type` strings. -/
structure GuestInterfaceAddress where
  ip_address : String
  ip_address_type : String
deriving Repr, DecidableEq

/-- `GuestInterface` raw schema: optional `name`, `ip-addresses` list
defaulting to empty. -/
structure GuestInterface where
  name : Option String
  ip_addresses : List GuestInterfaceAddress
deriving Repr, DecidableEq

/-- Coercion of a JSON value to an `int` field (pydantic lax mode: integers,
and strings that parse as decimal integers; booleans and everything else are
rejected). -/
def jsonToInt : Json → Option Int
  | Json.num v => some v
  | Json.str s => pyIntParse s
  | _ => none

/-- Validation of a JSON value against an optional-`str` field with default
`None`: a missing key or JSON null yields `none`; a string is accepted;
anything else is a schema violation. -/
def jsonToOptStr : Option Json → Except String (Option String)
  | none => Except.ok none
  | some Json.null => Except.ok none
  | some (Json.str s) => Except.ok (some s)
  | some _ => Except.error "Input should be a valid string"

/-- Membership of a key in the field list of a decoded JSON object. -/
def jsonLookup (fields : List (String × Json)) (key : String) : Option Json :=
  fields.lookup key

/-- Validation of one record against the `VMRecord`/`ContainerRecord`
schema. -/
def validateVMRecord (j : Json) : Except String VMRecord :=
  match j with
  | Json.obj fields =>
    match jsonLookup fields "vmid" with
    | none => Except.error "vmid: Field required"
    | some v =>
      match jsonToInt v with
      | none => Except.error "vmid: Input should be a valid integer"
      | some vmid => do
        let name ← jsonToOptStr (jsonLookup fields "name")
        let status ← jsonToOptStr (jsonLookup fields "status")
        Except.ok ⟨vmid, name, status⟩
  | _ => Except.error "Input should be a valid dictionary"

/-- `VM_LIST_ADAPTER` / `CONTAINER_LIST_ADAPTER` applied to the extracted
list: validate each element in order, failing on the first violation. -/
def validateVMList : List Json → Except String (List VMRecord)
  | [] => Except.ok []
  | j :: rest => do
    let r ← validateVMRecord j
    let rs ← validateVMList rest
    Except.ok (r :: rs)

/-- Validation of one `ip-addresses` element. -/
def validateInterfaceAddress (j : Json) : Except String GuestInterfaceAddress :=
  match j with
  | Json.obj fields =>
    match jsonLookup fields "ip-address", jsonLookup fields "ip-address-type" with
    | some (Json.str ip), some (Json.str ty) => Except.ok ⟨ip, ty⟩
    | _, _ => Except.error "ip-address: Input should be a valid string"
  | _ => Except.error "Input should be a valid dictionary"

/-- Validation of the address list of one interface. -/
def validateAddressList : List Json → Except String (List GuestInterfaceAddress)
  | [] => Except.ok []
  | j :: rest => do
    let a ← validateInterfaceAddress j
    let rest2 ← validateAddressList rest
    Except.ok (a :: rest2)

/-- Validation of one record against the `GuestInterface` schema. -/
def validateInterface (j : Json) : Except String GuestInterface :=
  match j with
  | Json.obj fields => do
    let name ← jsonToOptStr (jsonLookup fields "name")
    match jsonLookup fields "ip-addresses" with
    | none => Except.ok ⟨name, []⟩
    | some (Json.arr items) => do
      let addrs ← validateAddressList items
      Except.ok ⟨name, addrs⟩
    | some _ => Except.error "ip-addresses: Input should be a valid list"
  | _ => Except.error "Input should be a valid dictionary"

/-- `INTERFACE_LIST_ADAPTER` applied to the agent payload: the payload must
be a list whose every element validates as a `GuestInterface`. -/
def validateInterfaceList (j : Json) : Except String (List GuestInterface) :=
  match j with
  | Json.arr items =>
    let rec go : List Json → Except String (List GuestInterface)
      | [] => Except.ok []
      | x :: rest => do
        let i ← validateInterface x
        let rest2 ← go rest
        Except.ok (i :: rest2)
    go items
  | _ => Except.error "Input should be a valid list"

-- Proxmox CLI Client (`proxmox_cli/core/maintenance.py`)

/-- Python `record.name or fallback`: `None` and the empty string are falsy
and replaced by the fallback. -/
def pyOrStr (v : Option String) (fallback : String) : String :=
  match v with
  | some s => if s = "" then fallback else s
  | none => fallback

/-- `ProxmoxCLIClient._run_json`: run the read-only command (a
`CommandExecutionError` is re-raised as `ProxmoxCLIError`), strip the stdout
(empty output raises `ProxmoxCLIError`), and decode it as JSON (a decode
failure raises `ProxmoxCLIError`). -/
def run_json (session : SSHSession) (command : String) (label : String) :
    PyM Json := do
  let result? ← tryCommand (session.run command true)
  match result? with
  | Except.error msg =>
    pyRaise (PyError.proxmoxCLI (label ++ " command failed: " ++ msg))
  | Except.ok result =>
    let text := pyStrip result.stdout
    if text = "" then pyRaise (PyError.proxmoxCLI (label ++ " returned no data"))
    else do
      let parsed ← askJsonLoads text
      match parsed with
      | some payload => pure payload
      | none => pyRaise (PyError.proxmoxCLI (label ++ " returned invalid JSON"))

/-- `ProxmoxCLIClient._extract_list`: accept a bare JSON array, or an object
whose `data` field is an array; anything else raises `ProxmoxCLIError`. -/
def extract_list (payload : Json) (label : String) : Except PyError (List Json) :=
  match payload with
  | Json.arr items => Except.ok items
  | Json.obj fields =>
    match jsonLookup fields "data" with
    | some (Json.arr items) => Except.ok items
    | _ => Except.error (PyError.proxmoxCLI
        (label ++ " output could not be parsed as a list"))
  | _ => Except.error (PyError.proxmoxCLI
      (label ++ " output could not be parsed as a list"))

/-- `ProxmoxCLIClient._extract_agent_payload`: for an object, the `result`
field if present, else the `data` field if present, else the object itself;
any non-object payload is returned unchanged. -/
def extract_agent_payload (payload : Json) : Json :=
  match payload with
  | Json.obj fields =>
    match jsonLookup fields "result" with
    | some v => v
    | none =>
      match jsonLookup fields "data" with
      | some v => v
      | none => Json.obj fields
  | other => other

/-- The `qm list` inventory command string. -/
def qmListCmd : String :=
  shlex_join ["qm", "list", "--full", "--output-format", "json"]

/-- The `pct list` inventory command string. -/
def pctListCmd : String :=
  shlex_join ["pct", "list", "--output-format", "json"]

/-- Normalization performed by `list_vms` on a validated record. -/
def vmOfRecord (record : VMRecord) : VirtualMachine :=
  { vmid := toString record.vmid,
    name := pyOrStr record.name (toString record.vmid),
    status := pyOrStr record.status "unknown" }

/-- Normalization performed by `list_containers` on a validated record. -/
def ctOfRecord (record : VMRecord) : LXCContainer :=
  { ctid := toString record.vmid,
    name := pyOrStr record.name (toString record.vmid),
    status := pyOrStr record.status "unknown" }

/-- `ProxmoxCLIClient.list_vms`: one read-only `qm list` JSON query, envelope
extraction, schema validation (a violation is re-raised as
`ProxmoxCLIError`), then normalization to `VirtualMachine` records. -/
def list_vms (session : SSHSession) : PyM (List VirtualMachine) := do
  let payload ← run_json session qmListCmd "VM list"
  let data ← liftExcept (extract_list payload "VM list")
  match validateVMList data with
  | Except.error e => pyRaise (PyError.proxmoxCLI ("Invalid VM payload: " ++ e))
  | Except.ok records => pure (records.map vmOfRecord)

/-- `ProxmoxCLIClient.list_containers`: as `list_vms` with the `pct list`
command and `LXCContainer` records. -/
def list_containers (session : SSHSession) : PyM (List LXCContainer) := do
  let payload ← run_json session pctListCmd "Container list"
  let data ← liftExcept (extract_list payload "Container list")
  match validateVMList data with
  | Except.error e =>
    pyRaise (PyError.proxmoxCLI ("Invalid container payload: " ++ e))
  | Except.ok records => pure (records.map ctOfRecord)

/-- `ProxmoxCLIClient.fetch_vm_interfaces`: one read-only `qm agent` JSON
query, agent-envelope extraction, and interface-list validation (a violation
is re-raised as `ProxmoxCLIError`). -/
def fetch_vm_interfaces (session : SSHSession) (vmid : String) :
    PyM (List GuestInterface) := do
  let payload ← run_json session (shlex_join ["qm", "agent", vmid, "network-get-interfaces"])
    ("VM " ++ vmid ++ " guest interfaces")
  let records := extract_agent_payload payload
  match validateInterfaceList records with
  | Except.error e =>
    pyRaise (PyError.proxmoxCLI ("Invalid interface payload: " ++ e))
  | Except.ok interfaces => pure interfaces

-- Agent Classes (`proxmox_cli/core/maintenance.py`)

/-- `ContainerAgent.fetch_ip` token filter `is_ipv4_address`: exactly four
dot-separated parts, each parsing via Python `int()` to a value in 0–255. -/
def is_ipv4_address (value : String) : Bool :=
  let parts := pySplitSep (Char.ofNat 46) value
  if parts.length ≠ 4 then false
  else parts.all (fun part =>
    match pyIntParse part with
    | some v => decide (0 ≤ v ∧ v ≤ 255)
    | none => false)

/-- First IPv4-typed address across the interface list, in order
(the nested `for` loops of `VirtualMachineAgent.fetch_ip`). -/
def findIPv4 : List GuestInterface → Option String
  | [] => none
  | iface :: rest =>
    match iface.ip_addresses.find? (fun a => pyLower a.ip_address_type == "ipv4") with
    | some a => some a.ip_address
    | none => findIPv4 rest

/-- `VirtualMachineAgent.stop_vm`: log, issue the mutable shutdown command
with the 120-second remote timeout hint, then execute
`self.vm.status = "stopped"` — which, `VirtualMachine` being frozen, raises. -/
def VirtualMachineAgent.stop_vm (proxmox_session : SSHSession)
    (vm : VirtualMachine) : PyM Unit := do
  emit (Event.logEvent "stop-vm")
  let cmd := shlex_join ["qm", "shutdown", vm.vmid, "--timeout", "120"]
  let _ ← proxmox_session.run cmd false true true
  frozenSetStatus "VirtualMachine" "stopped"

/-- `VirtualMachineAgent.backup_vm`: log, issue the mutable snapshot-mode
zstd backup command (no status assignment here). -/
def VirtualMachineAgent.backup_vm (proxmox_session : SSHSession)
    (vm : VirtualMachine) : PyM Unit := do
  emit (Event.logEvent "backup-vm")
  let cmd := shlex_join ["vzdump", vm.vmid, "--mode", "snapshot", "--compress", "zstd"]
  let _ ← proxmox_session.run cmd false true true
  pure ()

/-- `VirtualMachineAgent.start_vm`: log, issue the mutable start command,
then execute `self.vm.status = "running"` — which raises (frozen model). -/
def VirtualMachineAgent.start_vm (proxmox_session : SSHSession)
    (vm : VirtualMachine) : PyM Unit := do
  emit (Event.logEvent "start-vm")
  let cmd := shlex_join ["qm", "start", vm.vmid]
  let _ ← proxmox_session.run cmd false true true
  frozenSetStatus "VirtualMachine" "running"

/-- `VirtualMachineAgent.fetch_ip`: query the interfaces through the
inventory client (whose only state is its session); a `ProxmoxCLIError` logs
and degrades to `none`; otherwise the first IPv4-typed address, if any. -/
def VirtualMachineAgent.fetch_ip (inventory_session : SSHSession)
    (vm : VirtualMachine) : PyM (Option String) := do
  let interfaces? ← tryProxmox (fetch_vm_interfaces inventory_session vm.vmid)
  match interfaces? with
  | Except.error _ => do
    emit (Event.logEvent "vm-ip-fetch-error")
    pure none
  | Except.ok interfaces => pure (findIPv4 interfaces)

/-- `VirtualMachineAgent.reconcile`: observe the in-memory status, stop when
running, backup, start, discover the address, upgrade when an address was
found (Python truthiness: the empty string counts as no address), and stop
again when the guest was not initially running. -/
def VirtualMachineAgent.reconcile (proxmox_session : SSHSession)
    (inventory_session : SSHSession) (guest_options : GuestSSHOptions)
    (vm : VirtualMachine) : PyM Unit := do
  emit (Event.logEvent "process-vm")
  let was_running := vm.is_running
  if vm.is_running then VirtualMachineAgent.stop_vm proxmox_session vm
  VirtualMachineAgent.backup_vm proxmox_session vm
  VirtualMachineAgent.start_vm proxmox_session vm
  let ip_address ← VirtualMachineAgent.fetch_ip inventory_session vm
  match ip_address with
  | some ip =>
    if ip ≠ "" then
      attempt_guest_upgrade ip guest_options.user guest_options
        proxmox_session.dry_run ("vm-" ++ vm.vmid)
    else emit (Event.logEvent "vm-ip-missing")
  | none => emit (Event.logEvent "vm-ip-missing")
  if ¬ was_running then VirtualMachineAgent.stop_vm proxmox_session vm

/-- `ContainerAgent.stop`: issue the mutable shutdown command, then execute
`self.container.status = "stopped"` — which raises (frozen model). -/
def ContainerAgent.stop (proxmox_session : SSHSession) (ct : LXCContainer) :
    PyM Unit := do
  let cmd := shlex_join ["pct", "shutdown", ct.ctid, "--timeout", "120"]
  let _ ← proxmox_session.run cmd false true true
  frozenSetStatus "LXCContainer" "stopped"

/-- `ContainerAgent.backup`. -/
def ContainerAgent.backup (proxmox_session : SSHSession) (ct : LXCContainer) :
    PyM Unit := do
  let cmd := shlex_join ["vzdump", ct.ctid, "--mode", "snapshot", "--compress", "zstd"]
  let _ ← proxmox_session.run cmd false true true
  pure ()

/-- `ContainerAgent.start`: issue the mutable start command, then execute
`self.container.status = "running"` — which raises (frozen model). -/
def ContainerAgent.start (proxmox_session : SSHSession) (ct : LXCContainer) :
    PyM Unit := do
  let cmd := shlex_join ["pct", "start", ct.ctid]
  let _ ← proxmox_session.run cmd false true true
  frozenSetStatus "LXCContainer" "running"

/-- `ContainerAgent.fetch_ip`: one read-only `hostname -I` exec inside the
container; a command failure logs and degrades to `none`; otherwise the
first whitespace-separated token that is a dotted-quad IPv4 address. -/
def ContainerAgent.fetch_ip (proxmox_session : SSHSession) (ct : LXCContainer) :
    PyM (Option String) := do
  let cmd := shlex_join ["pct", "exec", ct.ctid, "--", "hostname", "-I"]
  let result? ← tryCommand (proxmox_session.run cmd true)
  match result? with
  | Except.error _ => do
    emit (Event.logEvent "ct-ip-fetch-error")
    pure none
  | Except.ok result => pure ((pySplitWs result.stdout).find? is_ipv4_address)

/-- `ContainerAgent.reconcile`: same state machine as the VM variant with the
`pct` command vocabulary and the `hostname -I` address discovery. -/
def ContainerAgent.reconcile (proxmox_session : SSHSession)
    (guest_options : GuestSSHOptions) (ct : LXCContainer) : PyM Unit := do
  emit (Event.logEvent "process-ct")
  let was_running := ct.is_running
  if ct.is_running then ContainerAgent.stop proxmox_session ct
  ContainerAgent.backup proxmox_session ct
  ContainerAgent.start proxmox_session ct
  let ip_address ← ContainerAgent.fetch_ip proxmox_session ct
  match ip_address with
  | some ip =>
    if ip ≠ "" then
      attempt_guest_upgrade ip guest_options.user guest_options
        proxmox_session.dry_run ("ct-" ++ ct.ctid)
    else emit (Event.logEvent "ct-ip-missing")
  | none => emit (Event.logEvent "ct-ip-missing")
  if ¬ was_running then ContainerAgent.stop proxmox_session ct

-- Fleet Orchestrator (`proxmox_cli/core/maintenance.py`)

/-- `ProxmoxAgent.__init__` clamping of the parallelism cap:
`self.max_parallel = max(1, max_parallel)`. -/
def proxmoxAgentMaxParallel (max_parallel : Int) : Int := max 1 max_parallel

/-- `ProxmoxAgent._run_with_limit`, as realized by the deterministic
sequential schedule: the bounded-concurrency gate runs every reconciler, and
an unhandled exception from one of them propagates out of the awaited
`asyncio.gather`. The cooperative interleaving itself is modelled separately
by `GateStep`; this sequential schedule is one admissible order of the
suspension points. An empty agent list returns immediately. -/
def run_with_limit : List (PyM Unit) → PyM Unit
  | [] => pure ()
  | agent :: rest => do
    agent
    run_with_limit rest

/-- `ProxmoxAgent.upgrade_proxmox_host`: host-level variant of the guest
upgrade, over the host session and never with `sudo`; both the os-release
read failure and the upgrade command failure are caught and logged. -/
def upgrade_proxmox_host (proxmox_session : SSHSession) : PyM Unit := do
  emit (Event.logEvent "host-upgrade")
  let release? ← tryCommand (proxmox_session.run "cat /etc/os-release" true)
  match release? with
  | Except.error _ => emit (Event.logEvent "host-os-release-error")
  | Except.ok release_content =>
    let os_release := parse_os_release release_content.stdout
    match determine_package_manager os_release with
    | none => emit (Event.logEvent "host-upgrade-unsupported")
    | some package_manager => do
      let command ← liftExcept (build_upgrade_command package_manager false)
      let r ← tryCommand (do
        let _ ← proxmox_session.run command false true true
        pure ())
      match r with
      | Except.error _ => emit (Event.logEvent "host-upgrade-failed")
      | Except.ok _ => pure ()

/-- `ProxmoxAgent.run`: list VMs (an inventory error logs and degrades to the
empty set), reconcile them under the gate, then the same for containers, then
the host-level upgrade. The inventory client shares the host session. -/
def ProxmoxAgent.run (proxmox_session : SSHSession)
    (guest_options : GuestSSHOptions) : PyM Unit := do
  let vms? ← tryProxmox (list_vms proxmox_session)
  let vms ←
    match vms? with
    | Except.error _ => do
      emit (Event.logEvent "vm-list-error")
      pure []
    | Except.ok vms => pure vms
  run_with_limit (vms.map (fun vm =>
    VirtualMachineAgent.reconcile proxmox_session proxmox_session guest_options vm))
  let containers? ← tryProxmox (list_containers proxmox_session)
  let containers ←
    match containers? with
    | Except.error _ => do
      emit (Event.logEvent "container-list-error")
      pure []
    | Except.ok containers => pure containers
  run_with_limit (containers.map (fun ct =>
    ContainerAgent.reconcile proxmox_session guest_options ct))
  upgrade_proxmox_host proxmox_session

-- Bounded-concurrency gate (`ProxmoxAgent._run_with_limit`)

/-- Phase of one worker coroutine of `_run_with_limit`: not yet through the
semaphore, inside `async with semaphore` (its `reconcile` in flight), or
done. -/
inductive WorkerPhase where
  | pending
  | active
  | finished
deriving Repr, DecidableEq

/-- Number of reconciliations currently in flight. -/
def activeCount : List WorkerPhase → Nat
  | [] => 0
  | WorkerPhase.active :: rest => activeCount rest + 1
  | _ :: rest => activeCount rest

/-- One cooperative scheduling step of the gate built from
`asyncio.Semaphore(cap)`: a pending worker may enter `async with semaphore`
only while the semaphore has capacity (fewer than `cap` holders), and an
active worker may finish its `reconcile` and release. -/
inductive GateStep (cap : Nat) : List WorkerPhase → List WorkerPhase → Prop where
  | acquire (i : Nat) (s : List WorkerPhase)
      (hi : s[i]? = some WorkerPhase.pending) (hcap : activeCount s < cap) :
      GateStep cap s (s.set i WorkerPhase.active)
  | release (i : Nat) (s : List WorkerPhase)
      (hi : s[i]? = some WorkerPhase.active) :
      GateStep cap s (s.set i WorkerPhase.finished)

/-- Gate states reachable from `n` workers all waiting. -/
def GateReachable (cap n : Nat) (s : List WorkerPhase) : Prop :=
  Relation.ReflTransGen (GateStep cap) (List.replicate n WorkerPhase.pending) s

-- Legacy module (`src/py/proxmox_maintenance.py`); its inventory record and
-- schema classes are field-for-field the classes of the consolidated module,
-- so the record types are shared, and the legacy `ProxmoxCLIError`
-- (a `RuntimeError`) raises and catches exactly like the consolidated one.

namespace Legacy

/-- `shlex_join` from `proxmox_maintenance.py`. -/
def shlex_join (parts : List String) : String :=
  String.intercalate " " (parts.map shlexQuote)

/-- `ProxmoxCLIClient._run_json` from `proxmox_maintenance.py`. -/
def run_json (session : SSHSession) (command : String) (label : String) :
    PyM Json := do
  let result? ← tryCommand (session.run command true)
  match result? with
  | Except.error msg =>
    pyRaise (PyError.proxmoxCLI (label ++ " command failed: " ++ msg))
  | Except.ok result =>
    let text := pyStrip result.stdout
    if text = "" then pyRaise (PyError.proxmoxCLI (label ++ " returned no data"))
    else do
      let parsed ← askJsonLoads text
      match parsed with
      | some payload => pure payload
      | none => pyRaise (PyError.proxmoxCLI (label ++ " returned invalid JSON"))

/-- `ProxmoxCLIClient._extract_list` from `proxmox_maintenance.py`. -/
def extract_list (payload : Json) (label : String) : Except PyError (List Json) :=
  match payload with
  | Json.arr items => Except.ok items
  | Json.obj fields =>
    match jsonLookup fields "data" with
    | some (Json.arr items) => Except.ok items
    | _ => Except.error (PyError.proxmoxCLI
        (label ++ " output could not be parsed as a list"))
  | _ => Except.error (PyError.proxmoxCLI
      (label ++ " output could not be parsed as a list"))

/-- `ProxmoxCLIClient._extract_agent_payload` from `proxmox_maintenance.py`. -/
def extract_agent_payload (payload : Json) : Json :=
  match payload with
  | Json.obj fields =>
    match jsonLookup fields "result" with
    | some v => v
    | none =>
      match jsonLookup fields "data" with
      | some v => v
      | none => Json.obj fields
  | other => other

/-- `ProxmoxCLIClient.list_vms` from `proxmox_maintenance.py`. -/
def list_vms (session : SSHSession) : PyM (List VirtualMachine) := do
  let payload ← run_json session
    (shlex_join ["qm", "list", "--full", "--output-format", "json"]) "VM list"
  let data ← liftExcept (extract_list payload "VM list")
  match validateVMList data with
  | Except.error e => pyRaise (PyError.proxmoxCLI ("Invalid VM payload: " ++ e))
  | Except.ok records => pure (records.map vmOfRecord)

/-- `ProxmoxCLIClient.list_containers` from `proxmox_maintenance.py`. -/
def list_containers (session : SSHSession) : PyM (List LXCContainer) := do
  let payload ← run_json session
    (shlex_join ["pct", "list", "--output-format", "json"]) "Container list"
  let data ← liftExcept (extract_list payload "Container list")
  match validateVMList data with
  | Except.error e =>
    pyRaise (PyError.proxmoxCLI ("Invalid container payload: " ++ e))
  | Except.ok records => pure (records.map ctOfRecord)

/-- `ProxmoxCLIClient.fetch_vm_interfaces` from `proxmox_maintenance.py`. -/
def fetch_vm_interfaces (session : SSHSession) (vmid : String) :
    PyM (List GuestInterface) := do
  let payload ← run_json session
    (shlex_join ["qm", "agent", vmid, "network-get-interfaces"])
    ("VM " ++ vmid ++ " guest interfaces")
  let records := extract_agent_payload payload
  match validateInterfaceList records with
  | Except.error e =>
    pyRaise (PyError.proxmoxCLI ("Invalid interface payload: " ++ e))
  | Except.ok interfaces => pure interfaces

/-- `is_ipv4_address` from `proxmox_maintenance.py`. -/
def is_ipv4_address (value : String) : Bool :=
  let parts := pySplitSep (Char.ofNat 46) value
  if parts.length ≠ 4 then false
  else parts.all (fun part =>
    match pyIntParse part with
    | some v => decide (0 ≤ v ∧ v ≤ 255)
    | none => false)

/-- `VirtualMachineAgent.stop_vm` from `proxmox_maintenance.py` (same frozen
record, same raising assignment). -/
def VirtualMachineAgent.stop_vm (proxmox_session : SSHSession)
    (vm : VirtualMachine) : PyM Unit := do
  emit (Event.logEvent "stop-vm")
  let cmd := shlex_join ["qm", "shutdown", vm.vmid, "--timeout", "120"]
  let _ ← proxmox_session.run cmd false true true
  frozenSetStatus "VirtualMachine" "stopped"

/-- `VirtualMachineAgent.backup_vm` from `proxmox_maintenance.py`. -/
def VirtualMachineAgent.backup_vm (proxmox_session : SSHSession)
    (vm : VirtualMachine) : PyM Unit := do
  emit (Event.logEvent "backup-vm")
  let cmd := shlex_join ["vzdump", vm.vmid, "--mode", "snapshot", "--compress", "zstd"]
  let _ ← proxmox_session.run cmd false true true
  pure ()

/-- `VirtualMachineAgent.start_vm` from `proxmox_maintenance.py`. -/
def VirtualMachineAgent.start_vm (proxmox_session : SSHSession)
    (vm : VirtualMachine) : PyM Unit := do
  emit (Event.logEvent "start-vm")
  let cmd := shlex_join ["qm", "start", vm.vmid]
  let _ ← proxmox_session.run cmd false true true
  frozenSetStatus "VirtualMachine" "running"

/-- `VirtualMachineAgent.fetch_ip` from `proxmox_maintenance.py`. -/
def VirtualMachineAgent.fetch_ip (inventory_session : SSHSession)
    (vm : VirtualMachine) : PyM (Option String) := do
  let interfaces? ← tryProxmox (fetch_vm_interfaces inventory_session vm.vmid)
  match interfaces? with
  | Except.error _ => do
    emit (Event.logEvent "vm-ip-fetch-error")
    pure none
  | Except.ok interfaces => pure (findIPv4 interfaces)

/-- `VirtualMachineAgent.reconcile` from `proxmox_maintenance.py`. -/
def VirtualMachineAgent.reconcile (proxmox_session : SSHSession)
    (inventory_session : SSHSession) (guest_options : GuestSSHOptions)
    (vm : VirtualMachine) : PyM Unit := do
  emit (Event.logEvent "process-vm")
  let was_running := vm.is_running
  if vm.is_running then VirtualMachineAgent.stop_vm proxmox_session vm
  VirtualMachineAgent.backup_vm proxmox_session vm
  VirtualMachineAgent.start_vm proxmox_session vm
  let ip_address ← VirtualMachineAgent.fetch_ip inventory_session vm
  match ip_address with
  | some ip =>
    if ip ≠ "" then
      attempt_guest_upgrade ip guest_options.user guest_options
        proxmox_session.dry_run ("vm-" ++ vm.vmid)
    else emit (Event.logEvent "vm-ip-missing")
  | none => emit (Event.logEvent "vm-ip-missing")
  if ¬ was_running then VirtualMachineAgent.stop_vm proxmox_session vm

/-- `ContainerAgent.stop` from `proxmox_maintenance.py`. -/
def ContainerAgent.stop (proxmox_session : SSHSession) (ct : LXCContainer) :
    PyM Unit := do
  let cmd := shlex_join ["pct", "shutdown", ct.ctid, "--timeout", "120"]
  let _ ← proxmox_session.run cmd false true true
  frozenSetStatus "LXCContainer" "stopped"

/-- `ContainerAgent.backup` from `proxmox_maintenance.py`. -/
def ContainerAgent.backup (proxmox_session : SSHSession) (ct : LXCContainer) :
    PyM Unit := do
  let cmd := shlex_join ["vzdump", ct.ctid, "--mode", "snapshot", "--compress", "zstd"]
  let _ ← proxmox_session.run cmd false true true
  pure ()

/-- `ContainerAgent.start` from `proxmox_maintenance.py`. -/
def ContainerAgent.start (proxmox_session : SSHSession) (ct : LXCContainer) :
    PyM Unit := do
  let cmd := shlex_join ["pct", "start", ct.ctid]
  let _ ← proxmox_session.run cmd false true true
  frozenSetStatus "LXCContainer" "running"

/-- `ContainerAgent.fetch_ip` from `proxmox_maintenance.py`. -/
def ContainerAgent.fetch_ip (proxmox_session : SSHSession) (ct : LXCContainer) :
    PyM (Option String) := do
  let cmd := shlex_join ["pct", "exec", ct.ctid, "--", "hostname", "-I"]
  let result? ← tryCommand (proxmox_session.run cmd true)
  match result? with
  | Except.error _ => do
    emit (Event.logEvent "ct-ip-fetch-error")
    pure none
  | Except.ok result => pure ((pySplitWs result.stdout).find? is_ipv4_address)

/-- `ContainerAgent.reconcile` from `proxmox_maintenance.py`. -/
def ContainerAgent.reconcile (proxmox_session : SSHSession)
    (guest_options : GuestSSHOptions) (ct : LXCContainer) : PyM Unit := do
  emit (Event.logEvent "process-ct")
  let was_running := ct.is_running
  if ct.is_running then ContainerAgent.stop proxmox_session ct
  ContainerAgent.backup proxmox_session ct
  ContainerAgent.start proxmox_session ct
  let ip_address ← ContainerAgent.fetch_ip proxmox_session ct
  match ip_address with
  | some ip =>
    if ip ≠ "" then
      attempt_guest_upgrade ip guest_options.user guest_options
        proxmox_session.dry_run ("ct-" ++ ct.ctid)
    else emit (Event.logEvent "ct-ip-missing")
  | none => emit (Event.logEvent "ct-ip-missing")
  if ¬ was_running then ContainerAgent.stop proxmox_session ct

/-- `ProxmoxAgent.__init__` clamping from `proxmox_maintenance.py`. -/
def proxmoxAgentMaxParallel (max_parallel : Int) : Int := max 1 max_parallel

/-- `ProxmoxAgent._run_with_limit` from `proxmox_maintenance.py`, under the
same deterministic sequential schedule as the consolidated embedding. -/
def run_with_limit : List (PyM Unit) → PyM Unit
  | [] => pure ()
  | agent :: rest => do
    agent
    run_with_limit rest

/-- `ProxmoxAgent.upgrade_proxmox_host` from `proxmox_maintenance.py`. -/
def upgrade_proxmox_host (proxmox_session : SSHSession) : PyM Unit := do
  emit (Event.logEvent "host-upgrade")
  let release? ← tryCommand (proxmox_session.run "cat /etc/os-release" true)
  match release? with
  | Except.error _ => emit (Event.logEvent "host-os-release-error")
  | Except.ok release_content =>
    let os_release := parse_os_release release_content.stdout
    match determine_package_manager os_release with
    | none => emit (Event.logEvent "host-upgrade-unsupported")
    | some package_manager => do
      let command ← liftExcept (build_upgrade_command package_manager false)
      let r ← tryCommand (do
        let _ ← proxmox_session.run command false true true
        pure ())
      match r with
      | Except.error _ => emit (Event.logEvent "host-upgrade-failed")
      | Except.ok _ => pure ()

/-- `ProxmoxAgent.run` from `proxmox_maintenance.py`. -/
def ProxmoxAgent.run (proxmox_session : SSHSession)
    (guest_options : GuestSSHOptions) : PyM Unit := do
  let vms? ← tryProxmox (list_vms proxmox_session)
  let vms ←
    match vms? with
    | Except.error _ => do
      emit (Event.logEvent "vm-list-error")
      pure []
    | Except.ok vms => pure vms
  run_with_limit (vms.map (fun vm =>
    VirtualMachineAgent.reconcile proxmox_session proxmox_session guest_options vm))
  let containers? ← tryProxmox (list_containers proxmox_session)
  let containers ←
    match containers? with
    | Except.error _ => do
      emit (Event.logEvent "container-list-error")
      pure []
    | Except.ok containers => pure containers
  run_with_limit (containers.map (fun ct =>
    ContainerAgent.reconcile proxmox_session guest_options ct))
  upgrade_proxmox_host proxmox_session

end Legacy

-- Unfolding lemmas for the effect monad.

theorem PyM.bind_apply {α β : Type} (m : PyM α) (f : α → PyM β) (w : World)
    (n : Nat) :
    (m >>= f) w n =
      match m w n with
      | (Except.ok a, n1, evs1) =>
        match f a w n1 with
        | (r, n2, evs2) => (r, n2, evs1 ++ evs2)
      | (Except.error e, n1, evs1) => (Except.error e, n1, evs1) := rfl

theorem PyM.pure_apply {α : Type} (a : α) (w : World) (n : Nat) :
    (Pure.pure a : PyM α) w n = (Except.ok a, n, []) := rfl

/-- C3. For every command run through a session: with `dry_run` set and the
command flagged mutable, `run` spawns nothing (the subprocess counter is
untouched and no spawn event is emitted) and returns the synthetic result
with empty stdout, empty stderr and exit code 0; a command not flagged
mutable always spawns exactly one subprocess, even under `dry_run`. -/
theorem dry_run_channel_semantics (s : SSHSession) (cmd : String)
    (capture check : Bool) (tosec : Option Nat) (w : World) (n : Nat) :
    (s.dry_run = true →
      s.run cmd capture check true tosec w n =
        (Except.ok ⟨"", "", 0⟩, n, [Event.dryRunCmd cmd])) ∧
    ((s.run cmd capture check false tosec w n).2.1 = n + 1 ∧
      (s.run cmd capture check false tosec w n).2.2 = [Event.execCmd cmd]) := by
  constructor
  · intro h
    simp [SSHSession.run, h]
  · constructor <;>
      · simp only [SSHSession.run]
        split
        · next h => simp at h
        · split
          · rfl
          · split
            · rfl
            · rfl

/-- Witness for C3: concrete dry-run session and mutable command. -/
theorem dry_run_channel_semantics_witness :
    SSHSession.run ⟨"pmx", "root", true, none, [], "proxmox"⟩ "qm start 100"
        false true true none
        ⟨fun _ => ⟨"", "", some 0, false⟩, false, none, fun _ => none⟩ 0 =
      (Except.ok ⟨"", "", 0⟩, 0, [Event.dryRunCmd "qm start 100"]) :=
  (dry_run_channel_semantics ⟨"pmx", "root", true, none, [], "proxmox"⟩
    "qm start 100" false true none
    ⟨fun _ => ⟨"", "", some 0, false⟩, false, none, fun _ => none⟩ 0).1 rfl

-- The semaphore bound of the bounded-concurrency gate.

theorem activeCount_replicate_pending (n : Nat) :
    activeCount (List.replicate n WorkerPhase.pending) = 0 := by
  induction n with
  | zero => rfl
  | succ k ih => simp [List.replicate, activeCount, ih]

theorem activeCount_set_from_pending :
    ∀ (s : List WorkerPhase) (i : Nat), s[i]? = some WorkerPhase.pending →
      activeCount (s.set i WorkerPhase.active) = activeCount s + 1 := by
  intro s
  induction s with
  | nil => intro i h; simp at h
  | cons p rest ih =>
    intro i h
    cases i with
    | zero =>
      have hp : p = WorkerPhase.pending := by simpa using h
      subst hp
      simp [List.set, activeCount]
    | succ i2 =>
      have h2 : rest[i2]? = some WorkerPhase.pending := by simpa using h
      have ih2 := ih i2 h2
      cases p <;> simp [List.set, activeCount, ih2]

theorem activeCount_set_to_finished :
    ∀ (s : List WorkerPhase) (i : Nat), s[i]? = some WorkerPhase.active →
      activeCount (s.set i WorkerPhase.finished) + 1 = activeCount s := by
  intro s
  induction s with
  | nil => intro i h; simp at h
  | cons p rest ih =>
    intro i h
    cases i with
    | zero =>
      have hp : p = WorkerPhase.active := by simpa using h
      subst hp
      simp [List.set, activeCount]
    | succ i2 =>
      have h2 : rest[i2]? = some WorkerPhase.active := by simpa using h
      have ih2 := ih i2 h2
      cases p <;> simp [List.set, activeCount] <;> omega

/-- C9. The parallelism cap is clamped to at least 1 at orchestrator
construction, and in every gate state reachable from `nWorkers` waiting
reconcilers under semaphore capacity `max(1, p)`, the number of
reconciliations in flight never exceeds that capacity. -/
theorem bounded_concurrency_gate (p : Int) (nWorkers : Nat)
    (s : List WorkerPhase) :
    1 ≤ proxmoxAgentMaxParallel p ∧
    (GateReachable (proxmoxAgentMaxParallel p).toNat nWorkers s →
      activeCount s ≤ (proxmoxAgentMaxParallel p).toNat) := by
  constructor
  · exact le_max_left 1 p
  · intro h
    induction h with
    | refl =>
      rw [activeCount_replicate_pending]
      exact Nat.zero_le _
    | tail hsteps hstep ih =>
      cases hstep with
      | acquire i s1 hi hcap =>
        rw [activeCount_set_from_pending _ i hi]
        exact hcap
      | release i s1 hi =>
        have hdec := activeCount_set_to_finished _ i hi
        omega

/-- Witness for C9: after one admissible acquire step from three waiting
workers under a configured cap of 2, the in-flight count stays within the
clamped cap. -/
theorem bounded_concurrency_gate_witness :
    activeCount ((List.replicate 3 WorkerPhase.pending).set 0
      WorkerPhase.active) ≤ (proxmoxAgentMaxParallel 2).toNat :=
  (bounded_concurrency_gate 2 3 _).2
    (Relation.ReflTransGen.single
      (GateStep.acquire 0 (List.replicate 3 WorkerPhase.pending)
        (by decide) (by decide)))

/-- C10. The legacy module's inventory client, reconciler agents, and
orchestrator are extensionally equal to the consolidated core module's
versions: on every environment they produce the same results, consume the
same subprocess outcomes in the same order, and emit the same observable
events (command strings, logs, prompts). -/
theorem legacy_core_equivalence :
    (∀ (sess : SSHSession) (w : World) (n : Nat),
      Legacy.list_vms sess w n = list_vms sess w n) ∧
    (∀ (sess : SSHSession) (w : World) (n : Nat),
      Legacy.list_containers sess w n = list_containers sess w n) ∧
    (∀ (sess : SSHSession) (vmid : String) (w : World) (n : Nat),
      Legacy.fetch_vm_interfaces sess vmid w n =
        fetch_vm_interfaces sess vmid w n) ∧
    (∀ v : String, Legacy.is_ipv4_address v = is_ipv4_address v) ∧
    (∀ (psess isess : SSHSession) (opts : GuestSSHOptions)
        (vm : VirtualMachine) (w : World) (n : Nat),
      Legacy.VirtualMachineAgent.reconcile psess isess opts vm w n =
        VirtualMachineAgent.reconcile psess isess opts vm w n) ∧
    (∀ (psess : SSHSession) (opts : GuestSSHOptions) (ct : LXCContainer)
        (w : World) (n : Nat),
      Legacy.ContainerAgent.reconcile psess opts ct w n =
        ContainerAgent.reconcile psess opts ct w n) ∧
    (∀ p : Int, Legacy.proxmoxAgentMaxParallel p = proxmoxAgentMaxParallel p) ∧
    (∀ (sess : SSHSession) (opts : GuestSSHOptions) (w : World) (n : Nat),
      Legacy.ProxmoxAgent.run sess opts w n = ProxmoxAgent.run sess opts w n) :=
  ⟨fun _ _ _ => rfl, fun _ _ _ => rfl, fun _ _ _ _ => rfl, fun _ => rfl,
   fun _ _ _ _ _ _ => rfl, fun _ _ _ _ _ => rfl, fun _ => rfl,
   fun _ _ _ _ => by
     have hvm : Legacy.VirtualMachineAgent.reconcile =
         VirtualMachineAgent.reconcile := rfl
     have hct : Legacy.ContainerAgent.reconcile = ContainerAgent.reconcile := rfl
     have hlv : Legacy.list_vms = list_vms := rfl
     have hlc : Legacy.list_containers = list_containers := rfl
     have hup : Legacy.upgrade_proxmox_host = upgrade_proxmox_host := rfl
     have hrwl : ∀ l, Legacy.run_with_limit l = run_with_limit l := by
       intro l
       induction l with
       | nil => rfl
       | cons a rest ih =>
         simp only [Legacy.run_with_limit, run_with_limit]
         rw [ih]
     unfold Legacy.ProxmoxAgent.run ProxmoxAgent.run
     simp only [hvm, hct, hlv, hlc, hup, hrwl]⟩

/-- The union of the five token families recognized by
`determine_package_manager`. -/
def recognizedPMTokens : List String :=
  ["alpine", "debian", "ubuntu", "fedora", "rhel", "centos", "arch",
   "suse", "opensuse", "sles"]

theorem beq_false_of_unrecognized {t x : String}
    (hx : recognizedPMTokens.contains x = true)
    (ht : recognizedPMTokens.contains t = false) : (t == x) = false := by
  rcases Bool.eq_false_or_eq_true (t == x) with h | h
  · exfalso
    have hx2 : recognizedPMTokens.contains t = true := by
      rw [eq_of_beq h]
      exact hx
    rw [ht] at hx2
    exact absurd hx2 (by simp)
  · exact h

/-- C7. `determine_package_manager` maps os-release content `ID=ubuntu` to
`apt`, `ID=alpine` to `apk`, `ID=arch` to `pacman`; on any mapping whose `ID`
and `ID_LIKE` tokens all avoid the five recognized families it returns
`none` without raising; and in that case `upgrade_guest_operating_system`
builds no upgrade command and skips the upgrade (only the single os-release
read is executed, and the result is `false` with the `unsupported` log). -/
theorem package_manager_mapping :
    determine_package_manager (parse_os_release "ID=ubuntu") = some "apt" ∧
    determine_package_manager (parse_os_release "ID=alpine") = some "apk" ∧
    determine_package_manager (parse_os_release "ID=arch") = some "pacman" ∧
    (∀ os_release : List (String × String),
      ((pyLower (dictGet os_release "ID" "") ::
          pySplitWs (pyLower (dictGet os_release "ID_LIKE" ""))).all
        (fun t => !(recognizedPMTokens.contains t))) = true →
      determine_package_manager os_release = none) ∧
    (∀ (sess : SSHSession) (w : World) (n : Nat),
      (w.exec n).returncode.getD (-1) = 0 →
      determine_package_manager (parse_os_release (w.exec n).stdout) = none →
      upgrade_guest_operating_system sess w n =
        (Except.ok false, n + 1,
          [Event.execCmd "cat /etc/os-release",
           Event.logEvent "guest-os-unsupported"])) := by
  refine ⟨by decide, by decide, by decide, ?_, ?_⟩
  · intro os_release h
    have hall : ∀ t ∈ (pyLower (dictGet os_release "ID" "") ::
        pySplitWs (pyLower (dictGet os_release "ID_LIKE" ""))),
        recognizedPMTokens.contains t = false := by
      intro t ht
      have h2 := List.all_eq_true.mp h t ht
      simpa using h2
    have h1 : (pyLower (dictGet os_release "ID" "") ::
        pySplitWs (pyLower (dictGet os_release "ID_LIKE" ""))).any
        (fun t => t == "alpine") = false := by
      apply List.any_eq_false.mpr
      intro t ht hcon
      have hcon2 : (t == "alpine") = true := hcon
      rw [@beq_false_of_unrecognized t "alpine" (by decide) (hall t ht)] at hcon2
      exact absurd hcon2 (by simp)
    have h2 : (pyLower (dictGet os_release "ID" "") ::
        pySplitWs (pyLower (dictGet os_release "ID_LIKE" ""))).any
        (fun t => t == "debian" || t == "ubuntu") = false := by
      apply List.any_eq_false.mpr
      intro t ht hcon
      have hcon2 : (t == "debian" || t == "ubuntu") = true := hcon
      rw [@beq_false_of_unrecognized t "debian" (by decide) (hall t ht),
        @beq_false_of_unrecognized t "ubuntu" (by decide) (hall t ht)] at hcon2
      exact absurd hcon2 (by simp)
    have h3 : (pyLower (dictGet os_release "ID" "") ::
        pySplitWs (pyLower (dictGet os_release "ID_LIKE" ""))).any
        (fun t => t == "fedora" || t == "rhel" || t == "centos") = false := by
      apply List.any_eq_false.mpr
      intro t ht hcon
      have hcon2 : (t == "fedora" || t == "rhel" || t == "centos") = true := hcon
      rw [@beq_false_of_unrecognized t "fedora" (by decide) (hall t ht),
        @beq_false_of_unrecognized t "rhel" (by decide) (hall t ht),
        @beq_false_of_unrecognized t "centos" (by decide) (hall t ht)] at hcon2
      exact absurd hcon2 (by simp)
    have h4 : (pyLower (dictGet os_release "ID" "") ::
        pySplitWs (pyLower (dictGet os_release "ID_LIKE" ""))).contains
        "arch" = false := by
      rcases Bool.eq_false_or_eq_true ((pyLower (dictGet os_release "ID" "") ::
        pySplitWs (pyLower (dictGet os_release "ID_LIKE" ""))).contains "arch")
        with hc | hc
      · exfalso
        have hmem := List.mem_of_elem_eq_true hc
        have hfalse := hall "arch" hmem
        rw [show recognizedPMTokens.contains "arch" = true from by decide] at hfalse
        exact absurd hfalse (by simp)
      · exact hc
    have h5 : (pyLower (dictGet os_release "ID" "") ::
        pySplitWs (pyLower (dictGet os_release "ID_LIKE" ""))).any
        (fun t => t == "suse" || t == "opensuse" || t == "sles") = false := by
      apply List.any_eq_false.mpr
      intro t ht hcon
      have hcon2 : (t == "suse" || t == "opensuse" || t == "sles") = true := hcon
      rw [@beq_false_of_unrecognized t "suse" (by decide) (hall t ht),
        @beq_false_of_unrecognized t "opensuse" (by decide) (hall t ht),
        @beq_false_of_unrecognized t "sles" (by decide) (hall t ht)] at hcon2
      exact absurd hcon2 (by simp)
    simp only [determine_package_manager]
    rw [h1, h2, h3, h4, h5]
    simp
  · intro sess w n h0 hnone
    have hrun : sess.run "cat /etc/os-release" true true false none w n =
        (Except.ok ⟨(w.exec n).stdout, (w.exec n).stderr, 0⟩, n + 1,
          [Event.execCmd "cat /etc/os-release"]) := by
      simp only [SSHSession.run]
      split
      · next hcon => simp at hcon
      · split
        · next hcon => simp at hcon
        · rw [if_neg]
          · simp [h0]
          · simp [h0]
    have htry : tryCommand (sess.run "cat /etc/os-release" true) w n =
        (Except.ok (Except.ok ⟨(w.exec n).stdout, (w.exec n).stderr, 0⟩),
          n + 1, [Event.execCmd "cat /etc/os-release"]) := by
      unfold tryCommand
      rw [hrun]
    unfold upgrade_guest_operating_system
    rw [PyM.bind_apply, htry]
    simp only [hnone]
    rfl

-- Shared plumbing lemmas for the effect monad.

theorem bind_emit_apply {α : Type} (ev : Event) (m : PyM α) (w : World)
    (n : Nat) :
    (emit ev >>= fun _ => m) w n =
      ((m w n).1, (m w n).2.1, ev :: (m w n).2.2) := by
  cases hm : m w n with
  | mk r rest =>
    rw [PyM.bind_apply]
    change (match m w n with
      | (r2, n2, evs2) => (r2, n2, [ev] ++ evs2)) = _
    rw [hm]
    rcases rest with ⟨n2, evs2⟩
    rfl

theorem bind_emit_fst {α : Type} (ev : Event) (m : PyM α) (w : World)
    (n : Nat) :
    ((emit ev >>= fun _ => m) w n).1 = (m w n).1 := by
  rw [bind_emit_apply]

theorem bind_fst_error {α β : Type} (m : PyM α) (f : α → PyM β) (w : World)
    (n : Nat) {e : PyError} {n1 : Nat} {evs : List Event}
    (hm : m w n = (Except.error e, n1, evs)) :
    ((m >>= f) w n).1 = Except.error e := by
  rw [PyM.bind_apply, hm]

theorem bind_fst_ok {α β : Type} (m : PyM α) (f : α → PyM β) (w : World)
    (n : Nat) {a : α} {n1 : Nat} {evs : List Event}
    (hm : m w n = (Except.ok a, n1, evs)) :
    ((m >>= f) w n).1 = (f a w n1).1 := by
  rw [PyM.bind_apply, hm]

/-- A mutable command through `run` either raises `CommandExecutionError` or
returns a result (the two shapes of `run`). -/
theorem run_mutable_cases (sess : SSHSession) (cmd : String) (w : World)
    (n : Nat) :
    (∃ res n1 evs,
      sess.run cmd false true true none w n = (Except.ok res, n1, evs)) ∨
    (∃ msg n1 evs,
      sess.run cmd false true true none w n =
        (Except.error (PyError.commandExecution msg), n1, evs)) := by
  simp only [SSHSession.run]
  split
  · exact Or.inl ⟨_, _, _, rfl⟩
  · split
    · exact Or.inr ⟨_, _, _, rfl⟩
    · split
      · exact Or.inr ⟨_, _, _, rfl⟩
      · exact Or.inl ⟨_, _, _, rfl⟩

/-- A mutable command through `run` succeeds when the session is in dry-run,
or when the spawned subprocess exits 0. -/
theorem run_mutable_ok (sess : SSHSession) (cmd : String) (w : World) (n : Nat)
    (hok : sess.dry_run = true ∨ (w.exec n).returncode.getD (-1) = 0) :
    ∃ res n1 evs,
      sess.run cmd false true true none w n = (Except.ok res, n1, evs) := by
  by_cases hdry : sess.dry_run = true
  · refine ⟨⟨"", "", 0⟩, n, [Event.dryRunCmd cmd], ?_⟩
    simp [SSHSession.run, hdry]
  · have h0 : (w.exec n).returncode.getD (-1) = 0 := by
      rcases hok with h | h
      · exact absurd h hdry
      · exact h
    refine ⟨⟨"", (w.exec n).stderr, 0⟩, n + 1, [Event.execCmd cmd], ?_⟩
    simp only [SSHSession.run]
    split
    · next hcon => exact absurd hcon.1 hdry
    · split
      · next hcon => simp at hcon
      · rw [if_neg]
        · simp [h0]
        · simp [h0]

/-- A mutable command followed by a status assignment on a frozen record
always raises: either the command itself raises, or the frozen-instance
`ValidationError` does. -/
theorem run_bind_frozen_raises (sess : SSHSession) (cmd tn v : String)
    (w : World) (n : Nat) :
    ∃ e n1 evs,
      ((sess.run cmd false true true >>= fun _ => frozenSetStatus tn v) w n) =
        (Except.error e, n1, evs) := by
  rcases run_mutable_cases sess cmd w n with ⟨res, n1, evs, hr⟩ |
    ⟨msg, n1, evs, hr⟩
  · refine ⟨PyError.frozenInstance tn, n1, evs ++ [], ?_⟩
    rw [PyM.bind_apply, hr]
    rfl
  · refine ⟨PyError.commandExecution msg, n1, evs, ?_⟩
    rw [PyM.bind_apply, hr]

-- Lifecycle operations against the frozen inventory records.

theorem stop_vm_raises (sess : SSHSession) (vm : VirtualMachine) (w : World)
    (n : Nat) :
    ∃ e n1 evs,
      VirtualMachineAgent.stop_vm sess vm w n = (Except.error e, n1, evs) := by
  obtain ⟨e, n1, evs, hM⟩ := run_bind_frozen_raises sess
    (shlex_join ["qm", "shutdown", vm.vmid, "--timeout", "120"])
    "VirtualMachine" "stopped" w n
  refine ⟨e, n1, Event.logEvent "stop-vm" :: evs, ?_⟩
  simp only [VirtualMachineAgent.stop_vm]
  rw [bind_emit_apply, hM]

theorem start_vm_raises (sess : SSHSession) (vm : VirtualMachine) (w : World)
    (n : Nat) :
    ∃ e n1 evs,
      VirtualMachineAgent.start_vm sess vm w n = (Except.error e, n1, evs) := by
  obtain ⟨e, n1, evs, hM⟩ := run_bind_frozen_raises sess
    (shlex_join ["qm", "start", vm.vmid]) "VirtualMachine" "running" w n
  refine ⟨e, n1, Event.logEvent "start-vm" :: evs, ?_⟩
  simp only [VirtualMachineAgent.start_vm]
  rw [bind_emit_apply, hM]

theorem ct_stop_raises (sess : SSHSession) (ct : LXCContainer) (w : World)
    (n : Nat) :
    ∃ e n1 evs,
      ContainerAgent.stop sess ct w n = (Except.error e, n1, evs) := by
  obtain ⟨e, n1, evs, hM⟩ := run_bind_frozen_raises sess
    (shlex_join ["pct", "shutdown", ct.ctid, "--timeout", "120"])
    "LXCContainer" "stopped" w n
  exact ⟨e, n1, evs, hM⟩

theorem ct_start_raises (sess : SSHSession) (ct : LXCContainer) (w : World)
    (n : Nat) :
    ∃ e n1 evs,
      ContainerAgent.start sess ct w n = (Except.error e, n1, evs) := by
  obtain ⟨e, n1, evs, hM⟩ := run_bind_frozen_raises sess
    (shlex_join ["pct", "start", ct.ctid]) "LXCContainer" "running" w n
  exact ⟨e, n1, evs, hM⟩

theorem backup_vm_cases (sess : SSHSession) (vm : VirtualMachine) (w : World)
    (n : Nat) :
    (∃ e n1 evs,
      VirtualMachineAgent.backup_vm sess vm w n = (Except.error e, n1, evs)) ∨
    (∃ n1 evs,
      VirtualMachineAgent.backup_vm sess vm w n = (Except.ok (), n1, evs)) := by
  rcases run_mutable_cases sess
      (shlex_join ["vzdump", vm.vmid, "--mode", "snapshot", "--compress", "zstd"])
      w n with ⟨res, n1, evs, hr⟩ | ⟨msg, n1, evs, hr⟩
  · right
    refine ⟨n1, Event.logEvent "backup-vm" :: (evs ++ []), ?_⟩
    simp only [VirtualMachineAgent.backup_vm]
    rw [bind_emit_apply, PyM.bind_apply, hr]
    rfl
  · left
    refine ⟨PyError.commandExecution msg, n1, Event.logEvent "backup-vm" :: evs, ?_⟩
    simp only [VirtualMachineAgent.backup_vm]
    rw [bind_emit_apply, PyM.bind_apply, hr]

theorem ct_backup_cases (sess : SSHSession) (ct : LXCContainer) (w : World)
    (n : Nat) :
    (∃ e n1 evs,
      ContainerAgent.backup sess ct w n = (Except.error e, n1, evs)) ∨
    (∃ n1 evs,
      ContainerAgent.backup sess ct w n = (Except.ok (), n1, evs)) := by
  rcases run_mutable_cases sess
      (shlex_join ["vzdump", ct.ctid, "--mode", "snapshot", "--compress", "zstd"])
      w n with ⟨res, n1, evs, hr⟩ | ⟨msg, n1, evs, hr⟩
  · right
    refine ⟨n1, evs ++ [], ?_⟩
    simp only [ContainerAgent.backup]
    rw [PyM.bind_apply, hr]
    rfl
  · left
    refine ⟨PyError.commandExecution msg, n1, evs, ?_⟩
    simp only [ContainerAgent.backup]
    rw [PyM.bind_apply, hr]

/-- C1 (what the code actually does). When the remote shutdown or start
command of a stop/start operation succeeds (dry-run, or exit status 0), the
subsequent local status assignment on the frozen `_InventoryRecord` raises a
pydantic `ValidationError` (`frozen_instance`): the operation ends in an
exception with the status field never set, for VMs and containers alike. -/
theorem status_assignment_raises_frozen (sess : SSHSession)
    (vm : VirtualMachine) (ct : LXCContainer) (w : World) (n : Nat)
    (hok : sess.dry_run = true ∨ (w.exec n).returncode.getD (-1) = 0) :
    (VirtualMachineAgent.stop_vm sess vm w n).1 =
      Except.error (PyError.frozenInstance "VirtualMachine") ∧
    (VirtualMachineAgent.start_vm sess vm w n).1 =
      Except.error (PyError.frozenInstance "VirtualMachine") ∧
    (ContainerAgent.stop sess ct w n).1 =
      Except.error (PyError.frozenInstance "LXCContainer") ∧
    (ContainerAgent.start sess ct w n).1 =
      Except.error (PyError.frozenInstance "LXCContainer") := by
  refine ⟨?_, ?_, ?_, ?_⟩
  · simp only [VirtualMachineAgent.stop_vm]
    rw [bind_emit_apply]
    obtain ⟨res, n1, evs, hr⟩ := run_mutable_ok sess _ w n hok
    exact (bind_fst_ok _ _ _ _ hr).trans rfl
  · simp only [VirtualMachineAgent.start_vm]
    rw [bind_emit_apply]
    obtain ⟨res, n1, evs, hr⟩ := run_mutable_ok sess _ w n hok
    exact (bind_fst_ok _ _ _ _ hr).trans rfl
  · simp only [ContainerAgent.stop]
    obtain ⟨res, n1, evs, hr⟩ := run_mutable_ok sess _ w n hok
    exact (bind_fst_ok _ _ _ _ hr).trans rfl
  · simp only [ContainerAgent.start]
    obtain ⟨res, n1, evs, hr⟩ := run_mutable_ok sess _ w n hok
    exact (bind_fst_ok _ _ _ _ hr).trans rfl

/-- Witness for C1: a concrete dry-run session (the shutdown command
succeeds) against a concrete running VM. -/
theorem status_assignment_raises_frozen_witness :
    (VirtualMachineAgent.stop_vm ⟨"pmx", "root", true, none, [], "proxmox"⟩
        ⟨"100", "vm", "running"⟩
        ⟨fun _ => ⟨"", "", some 0, false⟩, false, none, fun _ => none⟩ 0).1 =
      Except.error (PyError.frozenInstance "VirtualMachine") :=
  (status_assignment_raises_frozen ⟨"pmx", "root", true, none, [], "proxmox"⟩
    ⟨"100", "vm", "running"⟩ ⟨"200", "ct", "stopped"⟩
    ⟨fun _ => ⟨"", "", some 0, false⟩, false, none, fun _ => none⟩ 0
    (Or.inl rfl)).1

/-- C2 (what the code actually does). No reconciliation ever completes
without raising, for any guest and any environment: on every path the first
status assignment on the frozen record (or an earlier command failure)
raises, so the final-stop restoration step is unreachable. -/
theorem reconcile_never_completes (psess isess : SSHSession)
    (opts : GuestSSHOptions) (vm : VirtualMachine) (ct : LXCContainer)
    (w : World) (n : Nat) :
    (∃ e, (VirtualMachineAgent.reconcile psess isess opts vm w n).1 =
      Except.error e) ∧
    (∃ e, (ContainerAgent.reconcile psess opts ct w n).1 =
      Except.error e) := by
  constructor
  · simp only [VirtualMachineAgent.reconcile]
    rw [bind_emit_fst]
    by_cases hrun : vm.is_running = true
    · rw [if_pos hrun]
      obtain ⟨e, n1, evs, hs⟩ := stop_vm_raises psess vm w n
      exact ⟨e, bind_fst_error _ _ _ _ hs⟩
    · rw [if_neg hrun]
      have hp : (pure () : PyM Unit) w n = (Except.ok (), n, []) := rfl
      rcases backup_vm_cases psess vm w n with ⟨e, n1, evs, hb⟩ |
        ⟨n1, evs, hb⟩
      · exact ⟨e, (bind_fst_ok _ _ _ _ hp).trans (bind_fst_error _ _ _ _ hb)⟩
      · obtain ⟨e2, n2, evs2, hst⟩ := start_vm_raises psess vm w n1
        exact ⟨e2, (bind_fst_ok _ _ _ _ hp).trans
          ((bind_fst_ok _ _ _ _ hb).trans (bind_fst_error _ _ _ _ hst))⟩
  · simp only [ContainerAgent.reconcile]
    rw [bind_emit_fst]
    by_cases hrun : ct.is_running = true
    · rw [if_pos hrun]
      obtain ⟨e, n1, evs, hs⟩ := ct_stop_raises psess ct w n
      exact ⟨e, bind_fst_error _ _ _ _ hs⟩
    · rw [if_neg hrun]
      have hp : (pure () : PyM Unit) w n = (Except.ok (), n, []) := rfl
      rcases ct_backup_cases psess ct w n with ⟨e, n1, evs, hb⟩ |
        ⟨n1, evs, hb⟩
      · exact ⟨e, (bind_fst_ok _ _ _ _ hp).trans (bind_fst_error _ _ _ _ hb)⟩
      · obtain ⟨e2, n2, evs2, hst⟩ := ct_start_raises psess ct w n1
        exact ⟨e2, (bind_fst_ok _ _ _ _ hp).trans
          ((bind_fst_ok _ _ _ _ hb).trans (bind_fst_error _ _ _ _ hst))⟩

-- Guest-upgrade retry behaviour (`attempt_guest_upgrade`).

/-- Concrete environment for the retry analysis: the guest os-release read
succeeds with an unrecognized OS, the terminal is interactive, and the
prompt is answered with a blank line. -/
def worldUnsupportedTty : World :=
  ⟨fun _ => ⟨"ID=plan9", "", some 0, false⟩, true, some "", fun _ => none⟩

/-- Counterexample to C6: the os-release read succeeds (the first event is
its spawn and the outcome is `unsupported`, not a command-execution failure),
yet the interactive username prompt still happens. -/
theorem prompt_on_unsupported_counterexample :
    attempt_guest_upgrade "10.0.0.5" "root" ⟨"root", none, []⟩ false "vm-100"
        worldUnsupportedTty 0 =
      (Except.ok (), 1,
        [Event.execCmd "cat /etc/os-release",
         Event.logEvent "guest-os-unsupported",
         Event.prompt "10.0.0.5" "root"]) := rfl

/-- C6 as amended: `attempt_guest_upgrade` prompts for an alternate username
exactly when the whole initial upgrade attempt reports failure — for any of
its three reasons (os-release read failure, unsupported OS, upgrade-command
failure) — and the session is attached to an interactive terminal;
non-interactive sessions skip silently; and a non-blank prompt answer
triggers exactly one retry with a fresh session under the alternate user. -/
theorem prompt_retry_on_any_failure (ip user : String)
    (opts : GuestSSHOptions) (dr : Bool) (ident : String) (w : World)
    (n : Nat) (b : Bool) (n1 : Nat) (evs1 : List Event)
    (h1 : upgrade_guest_operating_system
      ⟨ip, user, dr, opts.identity_file, opts.extra_args, ident⟩ w n =
      (Except.ok b, n1, evs1)) :
    (b = true →
      attempt_guest_upgrade ip user opts dr ident w n =
        (Except.ok (), n1, evs1)) ∧
    (b = false → w.isatty = false →
      attempt_guest_upgrade ip user opts dr ident w n =
        (Except.ok (), n1, evs1 ++ [Event.logEvent "prompt-unavailable"])) ∧
    (b = false → w.isatty = true → w.inputLine = none →
      attempt_guest_upgrade ip user opts dr ident w n =
        (Except.ok (), n1, evs1 ++ [Event.prompt ip user])) ∧
    (∀ line, b = false → w.isatty = true → w.inputLine = some line →
      pyStrip line = "" →
      attempt_guest_upgrade ip user opts dr ident w n =
        (Except.ok (), n1, evs1 ++ [Event.prompt ip user])) ∧
    (∀ line alt b2 n2 evs2, b = false → w.isatty = true →
      w.inputLine = some line → pyStrip line = alt → alt ≠ "" →
      upgrade_guest_operating_system
        ⟨ip, alt, dr, opts.identity_file, opts.extra_args, ident ++ "-retry"⟩
        w n1 = (Except.ok b2, n2, evs2) →
      attempt_guest_upgrade ip user opts dr ident w n =
        (Except.ok (), n2, evs1 ++ Event.prompt ip user :: evs2)) := by
  refine ⟨?_, ?_, ?_, ?_, ?_⟩
  · intro hb
    subst hb
    simp only [attempt_guest_upgrade]
    rw [PyM.bind_apply, h1]
    simp [Pure.pure, PyM.pure, List.append_nil]
  · intro hb hatty
    subst hb
    simp only [attempt_guest_upgrade]
    rw [PyM.bind_apply, h1]
    simp [Pure.pure, PyM.pure, prompt_for_alternate_username, hatty, PyM.bind_apply]
  · intro hb hatty hline
    subst hb
    simp only [attempt_guest_upgrade]
    rw [PyM.bind_apply, h1]
    simp [Pure.pure, PyM.pure, prompt_for_alternate_username, hatty, hline, PyM.bind_apply]
  · intro line hb hatty hline hstrip
    subst hb
    simp only [attempt_guest_upgrade]
    rw [PyM.bind_apply, h1]
    simp [Pure.pure, PyM.pure, prompt_for_alternate_username, hatty, hline, hstrip, PyM.bind_apply]
  · intro line alt b2 n2 evs2 hb hatty hline hstrip halt h2
    subst hb
    simp only [attempt_guest_upgrade]
    rw [PyM.bind_apply, h1]
    simp [Pure.pure, PyM.pure, prompt_for_alternate_username, hatty, hline,
      hstrip, halt, PyM.bind_apply, PyM.bind, h2]

/-- Witness for C6 as amended: the unsupported-OS world with a blank prompt
answer, run end to end through `attempt_guest_upgrade`. -/
theorem prompt_retry_on_any_failure_witness :
    attempt_guest_upgrade "10.0.0.9" "root" ⟨"root", none, []⟩ false "ct-200"
        worldUnsupportedTty 0 =
      (Except.ok (), 1,
        [Event.execCmd "cat /etc/os-release",
         Event.logEvent "guest-os-unsupported",
         Event.prompt "10.0.0.9" "root"]) := by
  have h1 : upgrade_guest_operating_system
      ⟨"10.0.0.9", "root", false, none, [], "ct-200"⟩ worldUnsupportedTty 0 =
      (Except.ok false, 1,
        [Event.execCmd "cat /etc/os-release",
         Event.logEvent "guest-os-unsupported"]) := rfl
  exact (prompt_retry_on_any_failure "10.0.0.9" "root" ⟨"root", none, []⟩
    false "ct-200" worldUnsupportedTty 0 false 1
    [Event.execCmd "cat /etc/os-release",
     Event.logEvent "guest-os-unsupported"] h1).2.2.2.1 "" rfl rfl rfl rfl

-- Shared lemmas about `SSHSession.run` under an oracle outcome.

theorem run_capture_ok (sess : SSHSession) (cmd : String) (w : World) (n : Nat)
    (h0 : (w.exec n).returncode.getD (-1) = 0) :
    sess.run cmd true true false none w n =
      (Except.ok ⟨(w.exec n).stdout, (w.exec n).stderr, 0⟩, n + 1,
        [Event.execCmd cmd]) := by
  simp only [SSHSession.run]
  split
  · next hcon => simp at hcon
  · split
    · next hcon => simp at hcon
    · rw [if_neg]
      · simp [h0]
      · simp [h0]

theorem tryCommand_run_capture_ok (sess : SSHSession) (cmd : String) (w : World)
    (n : Nat) (h0 : (w.exec n).returncode.getD (-1) = 0) :
    tryCommand (sess.run cmd true) w n =
      (Except.ok (Except.ok ⟨(w.exec n).stdout, (w.exec n).stderr, 0⟩), n + 1,
        [Event.execCmd cmd]) := by
  unfold tryCommand
  rw [run_capture_ok sess cmd w n h0]

theorem run_capture_fail (sess : SSHSession) (cmd : String) (w : World)
    (n : Nat) (h0 : (w.exec n).returncode.getD (-1) ≠ 0) :
    sess.run cmd true true false none w n =
      (Except.error (PyError.commandExecution
        ("Command failed on " ++ sess.description ++ ": " ++ cmd)), n + 1,
        [Event.execCmd cmd]) := by
  simp only [SSHSession.run]
  split
  · next hcon => simp at hcon
  · split
    · next hcon => simp at hcon
    · rw [if_pos ⟨trivial, h0⟩]

theorem tryCommand_run_capture_fail (sess : SSHSession) (cmd : String)
    (w : World) (n : Nat) (h0 : (w.exec n).returncode.getD (-1) ≠ 0) :
    tryCommand (sess.run cmd true) w n =
      (Except.ok (Except.error
        ("Command failed on " ++ sess.description ++ ": " ++ cmd)), n + 1,
        [Event.execCmd cmd]) := by
  unfold tryCommand
  rw [run_capture_fail sess cmd w n h0]

/-- `_run_json` classification: a `ProxmoxCLIError` exactly on command
failure, empty stripped stdout, or JSON decode failure; otherwise the decoded
payload. One subprocess is spawned either way. -/
theorem run_json_spec (sess : SSHSession) (cmd label : String) (w : World)
    (n : Nat) :
    (((w.exec n).returncode.getD (-1) ≠ 0 ∨ pyStrip (w.exec n).stdout = "" ∨
        w.jsonLoads (pyStrip (w.exec n).stdout) = none) ∧
      ∃ m, run_json sess cmd label w n =
        (Except.error (PyError.proxmoxCLI m), n + 1, [Event.execCmd cmd])) ∨
    ((w.exec n).returncode.getD (-1) = 0 ∧ pyStrip (w.exec n).stdout ≠ "" ∧
      ∃ j, w.jsonLoads (pyStrip (w.exec n).stdout) = some j ∧
        run_json sess cmd label w n = (Except.ok j, n + 1, [Event.execCmd cmd])) := by
  by_cases h0 : (w.exec n).returncode.getD (-1) = 0
  · have htry := tryCommand_run_capture_ok sess cmd w n h0
    by_cases htext : pyStrip (w.exec n).stdout = ""
    · left
      refine ⟨Or.inr (Or.inl htext), label ++ " returned no data", ?_⟩
      simp only [run_json]
      rw [PyM.bind_apply, htry]
      simp [htext, pyRaise]
    · cases hj : w.jsonLoads (pyStrip (w.exec n).stdout) with
      | none =>
        left
        refine ⟨Or.inr (Or.inr rfl), label ++ " returned invalid JSON", ?_⟩
        simp only [run_json]
        rw [PyM.bind_apply, htry]
        simp [htext, askJsonLoads, hj, PyM.bind_apply, pyRaise]
      | some j =>
        right
        refine ⟨h0, htext, j, rfl, ?_⟩
        simp only [run_json]
        rw [PyM.bind_apply, htry]
        simp [htext, askJsonLoads, hj, PyM.bind_apply, Pure.pure, PyM.pure]
  · left
    refine ⟨Or.inl h0, label ++ " command failed: " ++
      ("Command failed on " ++ sess.description ++ ": " ++ cmd), ?_⟩
    simp only [run_json]
    rw [PyM.bind_apply, tryCommand_run_capture_fail sess cmd w n h0]
    simp [pyRaise]

/-- `_extract_list` either returns a list or raises exactly the
`ProxmoxCLIError` naming the label. -/
theorem extract_list_error_shape (j : Json) (label : String) :
    (∃ items, extract_list j label = Except.ok items) ∨
    extract_list j label = Except.error
      (PyError.proxmoxCLI (label ++ " output could not be parsed as a list")) := by
  cases j with
  | arr items => exact Or.inl ⟨items, rfl⟩
  | obj fields =>
    cases hd : jsonLookup fields "data" with
    | none =>
      right
      simp only [extract_list]
      rw [hd]
    | some v =>
      cases v with
      | arr items =>
        left
        refine ⟨items, ?_⟩
        simp only [extract_list]
        rw [hd]
      | null =>
        right
        simp only [extract_list]
        rw [hd]
      | bool b =>
        right
        simp only [extract_list]
        rw [hd]
      | num v2 =>
        right
        simp only [extract_list]
        rw [hd]
      | str s =>
        right
        simp only [extract_list]
        rw [hd]
      | obj fields2 =>
        right
        simp only [extract_list]
        rw [hd]
  | null => exact Or.inr rfl
  | bool b => exact Or.inr rfl
  | num v => exact Or.inr rfl
  | str s => exact Or.inr rfl

/-- Case analysis of `list_vms` over an arbitrary environment. -/
theorem list_vms_cases (sess : SSHSession) (w : World) (n : Nat) :
    (∃ m, list_vms sess w n =
        (Except.error (PyError.proxmoxCLI m), n + 1, [Event.execCmd qmListCmd]) ∧
      ((w.exec n).returncode.getD (-1) ≠ 0 ∨ pyStrip (w.exec n).stdout = "" ∨
        w.jsonLoads (pyStrip (w.exec n).stdout) = none ∨
        (∃ j, w.jsonLoads (pyStrip (w.exec n).stdout) = some j ∧
          ((∃ pe, extract_list j "VM list" = Except.error pe) ∨
           (∃ data em, extract_list j "VM list" = Except.ok data ∧
             validateVMList data = Except.error em))))) ∨
    (∃ j data records,
      (w.exec n).returncode.getD (-1) = 0 ∧ pyStrip (w.exec n).stdout ≠ "" ∧
      w.jsonLoads (pyStrip (w.exec n).stdout) = some j ∧
      extract_list j "VM list" = Except.ok data ∧
      validateVMList data = Except.ok records ∧
      list_vms sess w n =
        (Except.ok (records.map vmOfRecord), n + 1, [Event.execCmd qmListCmd])) := by
  rcases run_json_spec sess qmListCmd "VM list" w n with
    ⟨hcond, m, hrj⟩ | ⟨h0, htext, j, hj, hrj⟩
  · left
    refine ⟨m, ?_, ?_⟩
    · simp only [list_vms]
      rw [PyM.bind_apply, hrj]
    · rcases hcond with h | h | h
      · exact Or.inl h
      · exact Or.inr (Or.inl h)
      · exact Or.inr (Or.inr (Or.inl h))
  · cases hex : extract_list j "VM list" with
    | error pe =>
      left
      rcases extract_list_error_shape j "VM list" with ⟨items, hok⟩ | herr
      · rw [hex] at hok
        exact absurd hok (by simp)
      · rw [hex] at herr
        refine ⟨"VM list output could not be parsed as a list", ?_,
          Or.inr (Or.inr (Or.inr ⟨j, hj, Or.inl ⟨pe, hex⟩⟩))⟩
        simp only [list_vms]
        rw [PyM.bind_apply, hrj]
        have hback : pe = PyError.proxmoxCLI
            ("VM list output could not be parsed as a list") :=
          Except.error.inj herr
        simp [liftExcept, hex, hback, PyM.bind_apply, PyM.bind, pyRaise]
    | ok data =>
      cases hval : validateVMList data with
      | error em =>
        left
        refine ⟨"Invalid VM payload: " ++ em, ?_,
          Or.inr (Or.inr (Or.inr ⟨j, hj, Or.inr ⟨data, em, hex, hval⟩⟩))⟩
        simp only [list_vms]
        rw [PyM.bind_apply, hrj]
        simp [liftExcept, hex, PyM.bind_apply, PyM.bind, hval, pyRaise]
      | ok records =>
        right
        refine ⟨j, data, records, h0, htext, hj, hex, hval, ?_⟩
        simp only [list_vms]
        rw [PyM.bind_apply, hrj]
        simp [liftExcept, hex, PyM.bind_apply, PyM.bind, hval, Pure.pure, PyM.pure]

/-- Case analysis of `list_containers` over an arbitrary environment. -/
theorem list_containers_cases (sess : SSHSession) (w : World) (n : Nat) :
    (∃ m, list_containers sess w n =
        (Except.error (PyError.proxmoxCLI m), n + 1, [Event.execCmd pctListCmd]) ∧
      ((w.exec n).returncode.getD (-1) ≠ 0 ∨ pyStrip (w.exec n).stdout = "" ∨
        w.jsonLoads (pyStrip (w.exec n).stdout) = none ∨
        (∃ j, w.jsonLoads (pyStrip (w.exec n).stdout) = some j ∧
          ((∃ pe, extract_list j "Container list" = Except.error pe) ∨
           (∃ data em, extract_list j "Container list" = Except.ok data ∧
             validateVMList data = Except.error em))))) ∨
    (∃ j data records,
      (w.exec n).returncode.getD (-1) = 0 ∧ pyStrip (w.exec n).stdout ≠ "" ∧
      w.jsonLoads (pyStrip (w.exec n).stdout) = some j ∧
      extract_list j "Container list" = Except.ok data ∧
      validateVMList data = Except.ok records ∧
      list_containers sess w n =
        (Except.ok (records.map ctOfRecord), n + 1, [Event.execCmd pctListCmd])) := by
  rcases run_json_spec sess pctListCmd "Container list" w n with
    ⟨hcond, m, hrj⟩ | ⟨h0, htext, j, hj, hrj⟩
  · left
    refine ⟨m, ?_, ?_⟩
    · simp only [list_containers]
      rw [PyM.bind_apply, hrj]
    · rcases hcond with h | h | h
      · exact Or.inl h
      · exact Or.inr (Or.inl h)
      · exact Or.inr (Or.inr (Or.inl h))
  · cases hex : extract_list j "Container list" with
    | error pe =>
      left
      rcases extract_list_error_shape j "Container list" with ⟨items, hok⟩ | herr
      · rw [hex] at hok
        exact absurd hok (by simp)
      · rw [hex] at herr
        refine ⟨"Container list output could not be parsed as a list", ?_,
          Or.inr (Or.inr (Or.inr ⟨j, hj, Or.inl ⟨pe, hex⟩⟩))⟩
        simp only [list_containers]
        rw [PyM.bind_apply, hrj]
        have hback : pe = PyError.proxmoxCLI
            ("Container list output could not be parsed as a list") :=
          Except.error.inj herr
        simp [liftExcept, hex, hback, PyM.bind_apply, PyM.bind, pyRaise]
    | ok data =>
      cases hval : validateVMList data with
      | error em =>
        left
        refine ⟨"Invalid container payload: " ++ em, ?_,
          Or.inr (Or.inr (Or.inr ⟨j, hj, Or.inr ⟨data, em, hex, hval⟩⟩))⟩
        simp only [list_containers]
        rw [PyM.bind_apply, hrj]
        simp [liftExcept, hex, PyM.bind_apply, PyM.bind, hval, pyRaise]
      | ok records =>
        right
        refine ⟨j, data, records, h0, htext, hj, hex, hval, ?_⟩
        simp only [list_containers]
        rw [PyM.bind_apply, hrj]
        simp [liftExcept, hex, PyM.bind_apply, PyM.bind, hval, Pure.pure, PyM.pure]

/-- Case analysis of `fetch_vm_interfaces` over an arbitrary environment
(the agent-envelope extraction never raises, so only the schema validation
can fail after a successful decode). -/
theorem fetch_vm_interfaces_cases (sess : SSHSession) (vmid : String)
    (w : World) (n : Nat) :
    (∃ m, fetch_vm_interfaces sess vmid w n =
        (Except.error (PyError.proxmoxCLI m), n + 1,
          [Event.execCmd (shlex_join ["qm", "agent", vmid, "network-get-interfaces"])]) ∧
      ((w.exec n).returncode.getD (-1) ≠ 0 ∨ pyStrip (w.exec n).stdout = "" ∨
        w.jsonLoads (pyStrip (w.exec n).stdout) = none ∨
        (∃ j em, w.jsonLoads (pyStrip (w.exec n).stdout) = some j ∧
          validateInterfaceList (extract_agent_payload j) = Except.error em))) ∨
    (∃ j interfaces,
      (w.exec n).returncode.getD (-1) = 0 ∧ pyStrip (w.exec n).stdout ≠ "" ∧
      w.jsonLoads (pyStrip (w.exec n).stdout) = some j ∧
      validateInterfaceList (extract_agent_payload j) = Except.ok interfaces ∧
      fetch_vm_interfaces sess vmid w n =
        (Except.ok interfaces, n + 1,
          [Event.execCmd (shlex_join ["qm", "agent", vmid, "network-get-interfaces"])])) := by
  rcases run_json_spec sess (shlex_join ["qm", "agent", vmid, "network-get-interfaces"])
      ("VM " ++ vmid ++ " guest interfaces") w n with
    ⟨hcond, m, hrj⟩ | ⟨h0, htext, j, hj, hrj⟩
  · left
    refine ⟨m, ?_, ?_⟩
    · simp only [fetch_vm_interfaces]
      rw [PyM.bind_apply, hrj]
    · rcases hcond with h | h | h
      · exact Or.inl h
      · exact Or.inr (Or.inl h)
      · exact Or.inr (Or.inr (Or.inl h))
  · cases hval : validateInterfaceList (extract_agent_payload j) with
    | error em =>
      left
      refine ⟨"Invalid interface payload: " ++ em, ?_,
        Or.inr (Or.inr (Or.inr ⟨j, em, hj, hval⟩))⟩
      simp only [fetch_vm_interfaces]
      rw [PyM.bind_apply, hrj]
      simp [hval, pyRaise]
    | ok interfaces =>
      right
      refine ⟨j, interfaces, h0, htext, hj, hval, ?_⟩
      simp only [fetch_vm_interfaces]
      rw [PyM.bind_apply, hrj]
      simp [hval, Pure.pure, PyM.pure]

/-- C5 as amended. Every inventory query raises a `ProxmoxCLIError` — never
a raw command or parse exception — exactly when the read-only command fails,
its stripped stdout is empty, the output fails to decode as JSON, a record
violates the typed schema, or (for the two list endpoints) the decoded
payload is neither a JSON array nor an object whose `data` field is an
array; otherwise it returns the parsed, normalized records. -/
theorem inventory_error_classification :
    (∀ (sess : SSHSession) (w : World) (n : Nat),
      (∃ m, list_vms sess w n =
          (Except.error (PyError.proxmoxCLI m), n + 1, [Event.execCmd qmListCmd]) ∧
        ((w.exec n).returncode.getD (-1) ≠ 0 ∨ pyStrip (w.exec n).stdout = "" ∨
          w.jsonLoads (pyStrip (w.exec n).stdout) = none ∨
          (∃ j, w.jsonLoads (pyStrip (w.exec n).stdout) = some j ∧
            ((∃ pe, extract_list j "VM list" = Except.error pe) ∨
             (∃ data em, extract_list j "VM list" = Except.ok data ∧
               validateVMList data = Except.error em))))) ∨
      (∃ j data records,
        (w.exec n).returncode.getD (-1) = 0 ∧ pyStrip (w.exec n).stdout ≠ "" ∧
        w.jsonLoads (pyStrip (w.exec n).stdout) = some j ∧
        extract_list j "VM list" = Except.ok data ∧
        validateVMList data = Except.ok records ∧
        list_vms sess w n =
          (Except.ok (records.map vmOfRecord), n + 1, [Event.execCmd qmListCmd]))) ∧
    (∀ (sess : SSHSession) (w : World) (n : Nat),
      (∃ m, list_containers sess w n =
          (Except.error (PyError.proxmoxCLI m), n + 1, [Event.execCmd pctListCmd]) ∧
        ((w.exec n).returncode.getD (-1) ≠ 0 ∨ pyStrip (w.exec n).stdout = "" ∨
          w.jsonLoads (pyStrip (w.exec n).stdout) = none ∨
          (∃ j, w.jsonLoads (pyStrip (w.exec n).stdout) = some j ∧
            ((∃ pe, extract_list j "Container list" = Except.error pe) ∨
             (∃ data em, extract_list j "Container list" = Except.ok data ∧
               validateVMList data = Except.error em))))) ∨
      (∃ j data records,
        (w.exec n).returncode.getD (-1) = 0 ∧ pyStrip (w.exec n).stdout ≠ "" ∧
        w.jsonLoads (pyStrip (w.exec n).stdout) = some j ∧
        extract_list j "Container list" = Except.ok data ∧
        validateVMList data = Except.ok records ∧
        list_containers sess w n =
          (Except.ok (records.map ctOfRecord), n + 1, [Event.execCmd pctListCmd]))) ∧
    (∀ (sess : SSHSession) (vmid : String) (w : World) (n : Nat),
      (∃ m, fetch_vm_interfaces sess vmid w n =
          (Except.error (PyError.proxmoxCLI m), n + 1,
            [Event.execCmd (shlex_join ["qm", "agent", vmid, "network-get-interfaces"])]) ∧
        ((w.exec n).returncode.getD (-1) ≠ 0 ∨ pyStrip (w.exec n).stdout = "" ∨
          w.jsonLoads (pyStrip (w.exec n).stdout) = none ∨
          (∃ j em, w.jsonLoads (pyStrip (w.exec n).stdout) = some j ∧
            validateInterfaceList (extract_agent_payload j) = Except.error em))) ∨
      (∃ j interfaces,
        (w.exec n).returncode.getD (-1) = 0 ∧ pyStrip (w.exec n).stdout ≠ "" ∧
        w.jsonLoads (pyStrip (w.exec n).stdout) = some j ∧
        validateInterfaceList (extract_agent_payload j) = Except.ok interfaces ∧
        fetch_vm_interfaces sess vmid w n =
          (Except.ok interfaces, n + 1,
            [Event.execCmd (shlex_join ["qm", "agent", vmid, "network-get-interfaces"])]))) :=
  ⟨list_vms_cases, list_containers_cases, fetch_vm_interfaces_cases⟩

/-- Concrete environment for the C5 counterexample: the list command
succeeds and prints the valid JSON scalar `5`. -/
def worldScalarPayload : World :=
  ⟨fun _ => ⟨"5", "", some 0, false⟩, false, none,
    fun s => if s = "5" then some (Json.num 5) else none⟩

/-- Counterexample to C5 as stated: the command succeeds, the stripped
output is non-empty and decodes as valid JSON, and no record exists to
violate the schema — yet `list_vms` raises an inventory error (the decoded
payload is a scalar, neither an array nor a `data` object). -/
theorem list_vms_scalar_payload_counterexample :
    (list_vms ⟨"pmx", "root", false, none, [], "proxmox"⟩
        worldScalarPayload 0).1 =
      Except.error (PyError.proxmoxCLI
        "VM list output could not be parsed as a list") ∧
    (worldScalarPayload.exec 0).returncode.getD (-1) = 0 ∧
    pyStrip (worldScalarPayload.exec 0).stdout ≠ "" ∧
    worldScalarPayload.jsonLoads (pyStrip (worldScalarPayload.exec 0).stdout) =
      some (Json.num 5) := by
  refine ⟨?_, rfl, by decide, rfl⟩
  rfl

-- Listing-failure isolation (`ProxmoxAgent.run`)

/-- Concrete environment for the C4 counterexample: `qm list` fails, `pct
list` returns one container, and every later command succeeds. -/
def worldVmListFailCtPresent : World :=
  ⟨fun k => if k = 0 then ⟨"", "", some 1, false⟩
    else if k = 1 then ⟨"CT", "", some 0, false⟩
    else ⟨"", "", some 0, false⟩,
   false, none,
   fun s => if s = "CT" then
     some (Json.arr [Json.obj [("vmid", Json.num 200)]]) else none⟩

/-- Counterexample to C4 as stated: after a VM-listing inventory error the
orchestrator does continue into container listing and reconciliation, but
the host-level OS upgrade does not run — the container reconciliation raises
(frozen record) and the exception propagates out of `run` before
`upgrade_proxmox_host` is reached. -/
theorem host_upgrade_skipped_counterexample :
    (ProxmoxAgent.run ⟨"pmx", "root", false, none, [], "proxmox"⟩
        ⟨"root", none, []⟩ worldVmListFailCtPresent 0).1 =
      Except.error (PyError.frozenInstance "LXCContainer") ∧
    Event.logEvent "vm-list-error" ∈
      (ProxmoxAgent.run ⟨"pmx", "root", false, none, [], "proxmox"⟩
        ⟨"root", none, []⟩ worldVmListFailCtPresent 0).2.2 ∧
    Event.execCmd pctListCmd ∈
      (ProxmoxAgent.run ⟨"pmx", "root", false, none, [], "proxmox"⟩
        ⟨"root", none, []⟩ worldVmListFailCtPresent 0).2.2 ∧
    Event.logEvent "host-upgrade" ∉
      (ProxmoxAgent.run ⟨"pmx", "root", false, none, [], "proxmox"⟩
        ⟨"root", none, []⟩ worldVmListFailCtPresent 0).2.2 ∧
    Event.execCmd "cat /etc/os-release" ∉
      (ProxmoxAgent.run ⟨"pmx", "root", false, none, [], "proxmox"⟩
        ⟨"root", none, []⟩ worldVmListFailCtPresent 0).2.2 := by
  refine ⟨rfl, ?_, ?_, ?_, ?_⟩ <;> decide

/-- C4 as amended. A VM-listing inventory error degrades to the empty VM set
and container listing still executes; provided the attempted container
reconciliations do not raise (in particular when the listed container set is
empty), the host-level OS upgrade still runs. Symmetrically for a
container-listing error when the VM set was empty. `upgrade_proxmox_host`
always begins with its `host-upgrade` log event. -/
theorem listing_failure_isolation (sess : SSHSession) (opts : GuestSSHOptions)
    (w : World) (n : Nat) :
    (∀ m n1 evs1 n2 evs2,
      list_vms sess w n = (Except.error (PyError.proxmoxCLI m), n1, evs1) →
      list_containers sess w n1 = (Except.ok [], n2, evs2) →
      ProxmoxAgent.run sess opts w n =
        ((upgrade_proxmox_host sess w n2).1,
          (upgrade_proxmox_host sess w n2).2.1,
          evs1 ++ Event.logEvent "vm-list-error" ::
            (evs2 ++ (upgrade_proxmox_host sess w n2).2.2))) ∧
    (∀ n1 evs1 m n2 evs2,
      list_vms sess w n = (Except.ok [], n1, evs1) →
      list_containers sess w n1 =
        (Except.error (PyError.proxmoxCLI m), n2, evs2) →
      ProxmoxAgent.run sess opts w n =
        ((upgrade_proxmox_host sess w n2).1,
          (upgrade_proxmox_host sess w n2).2.1,
          evs1 ++ (evs2 ++ Event.logEvent "container-list-error" ::
            (upgrade_proxmox_host sess w n2).2.2))) ∧
    (∀ k, Event.logEvent "host-upgrade" ∈
      (upgrade_proxmox_host sess w k).2.2) := by
  refine ⟨?_, ?_, ?_⟩
  · intro m n1 evs1 n2 evs2 hvml hctl
    have htryv : tryProxmox (list_vms sess) w n =
        (Except.ok (Except.error m), n1, evs1) := by
      unfold tryProxmox
      rw [hvml]
    have htryc : tryProxmox (list_containers sess) w n1 =
        (Except.ok (Except.ok []), n2, evs2) := by
      unfold tryProxmox
      rw [hctl]
    cases hup : upgrade_proxmox_host sess w n2 with
    | mk r rest =>
      rcases rest with ⟨nf, evsf⟩
      simp only [ProxmoxAgent.run]
      rw [PyM.bind_apply, htryv]
      simp [PyM.bind_apply, PyM.bind, emit, Pure.pure, PyM.pure,
        run_with_limit, htryc, hup]
  · intro n1 evs1 m n2 evs2 hvml hctl
    have htryv : tryProxmox (list_vms sess) w n =
        (Except.ok (Except.ok []), n1, evs1) := by
      unfold tryProxmox
      rw [hvml]
    have htryc : tryProxmox (list_containers sess) w n1 =
        (Except.ok (Except.error m), n2, evs2) := by
      unfold tryProxmox
      rw [hctl]
    cases hup : upgrade_proxmox_host sess w n2 with
    | mk r rest =>
      rcases rest with ⟨nf, evsf⟩
      simp only [ProxmoxAgent.run]
      rw [PyM.bind_apply, htryv]
      simp [PyM.bind_apply, PyM.bind, emit, Pure.pure, PyM.pure,
        run_with_limit, htryc, hup]
  · intro k
    simp only [upgrade_proxmox_host]
    rw [bind_emit_apply]
    simp

/-- Concrete environment for the C4 witness: `qm list` fails, `pct list`
returns the empty JSON array, and the host upgrade then proceeds. -/
def worldVmListFailNoCt : World :=
  ⟨fun k => if k = 0 then ⟨"", "", some 1, false⟩
    else if k = 1 then ⟨"[]", "", some 0, false⟩
    else if k = 2 then ⟨"ID=debian", "", some 0, false⟩
    else ⟨"", "", some 0, false⟩,
   false, none,
   fun s => if s = "[]" then some (Json.arr []) else none⟩

/-- Witness for C4 as amended: the degraded run executes the container
listing and the full host upgrade. -/
theorem listing_failure_isolation_witness :
    ProxmoxAgent.run ⟨"pmx", "root", false, none, [], "proxmox"⟩
        ⟨"root", none, []⟩ worldVmListFailNoCt 0 =
      (Except.ok (), 4,
        [Event.execCmd "qm list --full --output-format json"] ++
          Event.logEvent "vm-list-error" ::
            ([Event.execCmd "pct list --output-format json"] ++
              [Event.logEvent "host-upgrade",
               Event.execCmd "cat /etc/os-release",
               Event.execCmd
                 "apt update && apt full-upgrade -y && apt autoremove -y"])) :=
  (listing_failure_isolation ⟨"pmx", "root", false, none, [], "proxmox"⟩
    ⟨"root", none, []⟩ worldVmListFailNoCt 0).1
    "VM list command failed: Command failed on proxmox: qm list --full --output-format json"
    1 [Event.execCmd "qm list --full --output-format json"]
    2 [Event.execCmd "pct list --output-format json"] rfl rfl

/-- C8. Container address extraction returns the first whitespace-separated
token of the `hostname -I` output that is a dotted-quad IPv4 address, `none`
when no token qualifies; and the claimed concrete evaluations hold. -/
theorem container_address_extraction :
    (∀ (sess : SSHSession) (ct : LXCContainer) (w : World) (n : Nat),
      (w.exec n).returncode.getD (-1) = 0 →
      ContainerAgent.fetch_ip sess ct w n =
        (Except.ok ((pySplitWs (w.exec n).stdout).find? is_ipv4_address), n + 1,
          [Event.execCmd
            (shlex_join ["pct", "exec", ct.ctid, "--", "hostname", "-I"])])) ∧
    (pySplitWs "invalid 192.168.1.100 300.400.500.600").find? is_ipv4_address =
      some "192.168.1.100" ∧
    (pySplitWs "").find? is_ipv4_address = none ∧
    is_ipv4_address "0.0.0.0" = true ∧
    is_ipv4_address "255.255.255.255" = true ∧
    (pySplitWs "fe80::1 2001:db8::1").find? is_ipv4_address = none := by
  refine ⟨?_, by decide, by decide, by decide, by decide, by decide⟩
  intro sess ct w n h0
  unfold ContainerAgent.fetch_ip
  rw [PyM.bind_apply,
    tryCommand_run_capture_ok sess
      (shlex_join ["pct", "exec", ct.ctid, "--", "hostname", "-I"]) w n h0]
  rfl

/-- Witness for C8: the spec example output through the embedded
`ContainerAgent.fetch_ip` against a concrete oracle. -/
theorem container_address_extraction_witness :
    ContainerAgent.fetch_ip ⟨"pmx", "root", false, none, [], "proxmox"⟩
        ⟨"200", "ct", "stopped"⟩
        ⟨fun _ => ⟨"invalid 192.168.1.100 300.400.500.600", "", some 0, false⟩,
          false, none, fun _ => none⟩ 0 =
      (Except.ok (some "192.168.1.100"), 1,
        [Event.execCmd "pct exec 200 -- hostname -I"]) := by
  rw [container_address_extraction.1 ⟨"pmx", "root", false, none, [], "proxmox"⟩
    ⟨"200", "ct", "stopped"⟩
    ⟨fun _ => ⟨"invalid 192.168.1.100 300.400.500.600", "", some 0, false⟩,
      false, none, fun _ => none⟩ 0 (by decide)]
  rfl

/-- Witness for C7: a concrete unrecognized os-release mapping, and a
concrete world whose os-release read succeeds with unsupported content. -/
theorem package_manager_mapping_witness :
    determine_package_manager [("ID", "plan9"), ("ID_LIKE", "research unix")] =
        none ∧
    upgrade_guest_operating_system ⟨"10.0.0.9", "root", false, none, [], "g"⟩
        ⟨fun _ => ⟨"ID=plan9", "", some 0, false⟩, false, none, fun _ => none⟩ 0 =
      (Except.ok false, 1,
        [Event.execCmd "cat /etc/os-release",
         Event.logEvent "guest-os-unsupported"]) := by
  constructor
  · exact package_manager_mapping.2.2.2.1
      [("ID", "plan9"), ("ID_LIKE", "research unix")] (by decide)
  · exact package_manager_mapping.2.2.2.2
      ⟨"10.0.0.9", "root", false, none, [], "g"⟩
      ⟨fun _ => ⟨"ID=plan9", "", some 0, false⟩, false, none, fun _ => none⟩ 0
      (by decide) (by decide)

end ProxmoxVerify
